import Mathlib

/-!
Coin-family message handlers of the legacy firmware (`fsm_msg_coin.h`).

A shallow embedding of the request handlers of
`src/legacy/firmware/fsm_msg_coin.h`.

* Machine integers are `Nat`; a `uint32_t` sum is reduced `% 2 ^ 32`.
* Fixed-size byte buffers are lists of bytes with implicit trailing zeros
  (every buffer starts zeroed); `writeAt` is a `memcpy` into such a buffer.
* The collaborators that are not part of the file (crypto library, coin
  registry, user interface, storage) are fields of `Env`.  Each handler is a
  function of the environment, the request and the `World` (the log of what
  has been emitted so far and the number of user prompts answered so far).
* A C `return` in the middle of a handler is an `if … then … else` whose
  `then` branch is the state at the return.
-/

namespace TrezorFsm

/-! ## Data model -/

inductive FailureType where
  | Failure_UnexpectedMessage
  | Failure_ButtonExpected
  | Failure_DataError
  | Failure_ActionCancelled
  | Failure_PinExpected
  | Failure_PinCancelled
  | Failure_PinInvalid
  | Failure_InvalidSignature
  | Failure_ProcessError
  | Failure_NotEnoughFunds
  | Failure_NotInitialized
  | Failure_PinMismatch
  | Failure_WipeCodeMismatch
  | Failure_InvalidSession
  | Failure_FirmwareError
  deriving DecidableEq, Repr

inductive InputScriptType where
  | SPENDADDRESS
  | SPENDMULTISIG
  | EXTERNAL
  | SPENDWITNESS
  | SPENDP2SHWITNESS
  | SPENDTAPROOT
  deriving DecidableEq, Repr

inductive SafetyCheckLevel where
  | Strict
  | PromptAlways
  | PromptTemporarily
  deriving DecidableEq, Repr

inductive ButtonRequestType where
  | ButtonRequest_Other
  | ButtonRequest_ProtectCall
  | ButtonRequest_PublicKey
  | ButtonRequest_Address
  | ButtonRequest_UnknownDerivationPath
  deriving DecidableEq, Repr

/-- The capability record of a coin (the fields the handlers read). A magic
that the coin does not define is `0`; an absent `cashaddr_prefix` (a `NULL`
pointer) is `none`. -/
structure CoinInfo where
  coin_name : String
  curve_name : String
  xpub_magic : Nat
  xpub_magic_segwit_p2sh : Nat
  xpub_magic_segwit_native : Nat
  has_segwit : Bool
  has_taproot : Bool
  decred : Bool
  overwintered : Bool
  timestamp : Bool
  cashaddr_prefix : Option String
  deriving DecidableEq, Repr

/-- The fields of `HDNode` the handlers read. -/
structure HDNode where
  depth : Nat
  child_num : Nat
  chain_code : List Nat
  private_key : List Nat
  public_key : List Nat
  deriving DecidableEq, Repr

/-- A protobuf `bytes` field: the `size` member and the byte array. -/
structure Bytes where
  size : Nat
  bytes : List Nat
  deriving DecidableEq, Repr

/-- The multisig descriptor, as far as the handlers read it: the threshold
`m`; everything else is passed on to the collaborators untouched. -/
structure MultisigRedeemScriptType where
  m : Nat
  pubkeys : List (List Nat)
  deriving DecidableEq, Repr

/-! ## Byte buffers -/

/-- The first `n` bytes of a zero-initialised buffer `buf`. -/
def readBytes (buf : List Nat) (n : Nat) : List Nat :=
  (List.range n).map (fun i => buf.getD i 0)

/-- The C call `memcpy(buf + off, src, src.length)` on a zero-initialised
buffer. -/
def writeAt (buf : List Nat) (off : Nat) (src : List Nat) : List Nat :=
  readBytes buf off ++ src ++ buf.drop (off + src.length)

/-- The C call `memcmp(a, b, n)`: `0` when the first `n` bytes agree, else the
sign of the first difference. -/
def memcmp (a b : List Nat) : Nat → Int
  | 0 => 0
  | n + 1 =>
    if a.headD 0 < b.headD 0 then -1
    else if b.headD 0 < a.headD 0 then 1
    else memcmp a.tail b.tail n

/-- Every byte of a buffer is zero. -/
def allZero (buf : List Nat) : Bool := buf.all (fun b => b == 0)

/-! ## Requests -/

structure GetPublicKey where
  address_n : List Nat
  has_ecdsa_curve_name : Bool
  ecdsa_curve_name : String
  has_show_display : Bool
  show_display : Bool
  has_coin_name : Bool
  coin_name : String
  has_script_type : Bool
  script_type : InputScriptType
  ignore_xpub_magic : Bool
  deriving DecidableEq, Repr

structure SignTx where
  outputs_count : Nat
  inputs_count : Nat
  has_coin_name : Bool
  coin_name : String
  has_expiry : Bool
  has_timestamp : Bool
  timestamp : Nat
  deriving DecidableEq, Repr

structure GetAddress where
  address_n : List Nat
  has_coin_name : Bool
  coin_name : String
  has_show_display : Bool
  show_display : Bool
  has_multisig : Bool
  multisig : MultisigRedeemScriptType
  script_type : InputScriptType
  has_ignore_xpub_magic : Bool
  ignore_xpub_magic : Bool
  deriving DecidableEq, Repr

structure SignMessage where
  address_n : List Nat
  message : Bytes
  has_coin_name : Bool
  coin_name : String
  script_type : InputScriptType
  no_script_type : Bool
  deriving DecidableEq, Repr

structure VerifyMessage where
  address : String
  signature : Bytes
  message : Bytes
  has_coin_name : Bool
  coin_name : String
  deriving DecidableEq, Repr

structure GetOwnershipId where
  address_n : List Nat
  has_coin_name : Bool
  coin_name : String
  has_multisig : Bool
  multisig : MultisigRedeemScriptType
  script_type : InputScriptType
  deriving DecidableEq, Repr

/-- The request of `fsm_msgGetOwnershipProof`; `ownership_ids_count` is the
length of `ownership_ids`. -/
structure GetOwnershipProof where
  address_n : List Nat
  has_coin_name : Bool
  coin_name : String
  script_type : InputScriptType
  has_multisig : Bool
  multisig : MultisigRedeemScriptType
  user_confirmation : Bool
  ownership_ids : List Bytes
  has_commitment_data : Bool
  commitment_data : Bytes
  deriving DecidableEq, Repr

/-! ## Responses -/

structure HDNodeType where
  depth : Nat
  fingerprint : Nat
  child_num : Nat
  chain_code : Bytes
  has_private_key : Bool
  private_key : Bytes
  public_key : Bytes
  deriving DecidableEq, Repr

structure PublicKey where
  node : HDNodeType
  xpub : String
  has_root_fingerprint : Bool
  root_fingerprint : Nat
  deriving DecidableEq, Repr

structure Address where
  address : String
  deriving DecidableEq, Repr

structure MessageSignature where
  address : String
  signature : Bytes
  deriving DecidableEq, Repr

structure OwnershipId where
  ownership_id : Bytes
  deriving DecidableEq, Repr

structure OwnershipProof where
  ownership_proof : Bytes
  signature : Bytes
  deriving DecidableEq, Repr

/-- A zeroed `bytes` field. -/
def Bytes.zero : Bytes := ⟨0, []⟩

/-- Every byte of a `bytes` field is zero. -/
def Bytes.isZero (b : Bytes) : Bool := b.size == 0 && allZero b.bytes

/-- Every byte of a `PublicKey` response buffer is zero. -/
def PublicKey.isZero (r : PublicKey) : Bool :=
  r.node.depth == 0 && r.node.fingerprint == 0 && r.node.child_num == 0 &&
  r.node.chain_code.isZero && !r.node.has_private_key &&
  r.node.private_key.isZero && r.node.public_key.isZero &&
  r.xpub == "" && !r.has_root_fingerprint && r.root_fingerprint == 0

/-- Every byte of an `Address` response buffer is zero. -/
def Address.isZero (r : Address) : Bool := r.address == ""

/-- Every byte of a `MessageSignature` response buffer is zero. -/
def MessageSignature.isZero (r : MessageSignature) : Bool :=
  r.address == "" && r.signature.isZero

/-- Every byte of an `OwnershipId` response buffer is zero. -/
def OwnershipId.isZero (r : OwnershipId) : Bool := r.ownership_id.isZero

/-- Every byte of an `OwnershipProof` response buffer is zero. -/
def OwnershipProof.isZero (r : OwnershipProof) : Bool :=
  r.ownership_proof.isZero && r.signature.isZero

/-! ## What a handler does to the outside world -/

/-- The response handed to `msg_write`, tagged with its message type. -/
inductive Response where
  | MessageType_PublicKey (r : PublicKey)
  | MessageType_Address (r : Address)
  | MessageType_MessageSignature (r : MessageSignature)
  | MessageType_OwnershipId (r : OwnershipId)
  | MessageType_OwnershipProof (r : OwnershipProof)
  deriving DecidableEq, Repr

/-- Screens drawn without waiting for the user. -/
inductive Screen where
  | layoutHome
  | layoutXPUB (xpub : String) (page : Nat)
  | layoutProgress (text : String)
  | layoutProgressSwipe (text : String)
  | layoutVerifyAddress (address : String)
  | layoutDialogSwipe (text : String)
  | layoutConfirmOwnershipProof
  deriving DecidableEq, Repr

/-- Calls that wait for an answer of the user. -/
inductive Prompt where
  | protectButton (type : ButtonRequestType) (confirm_only : Bool)
  | fsm_layoutSignMessage (message : List Nat)
  | fsm_layoutVerifyMessage (message : List Nat)
  | fsm_layoutCommitmentData (data : List Nat)
  | fsm_layoutPathWarning
  | fsm_layoutAddress (address : String) (desc : List Nat)
      (is_cashaddr : Bool) (skip_len : Nat) (multisig_index : Int)
      (multisig_xpub_magic : Nat)
  deriving DecidableEq, Repr

/-- Calls into the crypto library and the signing engine that the log
records. -/
inductive Call where
  | hdnode_serialize_public (fingerprint version : Nat)
  | signing_init (msg : SignTx) (coin : CoinInfo) (node : HDNode)
  | cryptoMessageSign
  | cryptoMessageVerify
  | tx_sign_ecdsa
  | tx_sign_bip340
  deriving DecidableEq, Repr

inductive Event where
  | failure (type : FailureType) (text : Option String)
  | success (text : String)
  | msg_write (r : Response)
  | screen (s : Screen)
  | prompt (p : Prompt)
  | call (c : Call)
  deriving DecidableEq, Repr

/-- The state a handler threads: the events so far, oldest first, and the
number of user prompts answered so far. -/
structure World where
  log : List Event
  prompts : Nat
  deriving DecidableEq, Repr

/-- The collaborators of the handlers that are not part of
`fsm_msg_coin.h`. -/
structure Env where
  config_isInitialized : Bool
  protectPin : Bool
  pinFailure : FailureType
  config_getSafetyCheckLevel : SafetyCheckLevel
  coinByName : Bool → String → Option CoinInfo
  helperText : String → Option String
  coin_path_check :
    CoinInfo → InputScriptType → List Nat → Bool → Bool → Bool
  is_internal_input_script_type : InputScriptType → Bool
  is_segwit_input_script_type : InputScriptType → Bool
  deriveNode : String → List Nat → Option (HDNode × Nat)
  hdnode_fill_public_key : HDNode → Int × HDNode
  hdnode_serialize_public : HDNode → Nat → Nat → String
  compute_address :
    CoinInfo → InputScriptType → HDNode → Bool →
      Option MultisigRedeemScriptType → Bool × String
  cryptoMultisigPubkeyCount : MultisigRedeemScriptType → Nat
  cryptoMultisigPubkeyIndex :
    CoinInfo → MultisigRedeemScriptType → List Nat → Int
  cryptoMessageSign :
    CoinInfo → HDNode → InputScriptType → Bool → List Nat → Int × List Nat
  cryptoMessageVerify : CoinInfo → List Nat → String → List Nat → Int
  slip21Key : List String → Option (List Nat)
  hmac_sha256 : List Nat → List Nat → List Nat
  get_script_pubkey :
    CoinInfo → HDNode → Bool → MultisigRedeemScriptType → InputScriptType →
      Option (List Nat) × HDNode
  sha256 : List Nat → List Nat
  tx_sign_ecdsa : CoinInfo → List Nat → List Nat → Bool × Bytes
  tx_sign_bip340 : List Nat → List Nat → Bool × Bytes
  serialize_p2wpkh_witness : List Nat → Nat → List Nat → Nat → Nat → List Nat
  serialize_p2tr_witness : List Nat → Nat → Nat → List Nat
  SIGHASH_ALL : Nat
  sizeof_Address_address : Nat
  answer : Nat → Bool

/-! ## Emitting messages, drawing, asking -/

def World.emit (w : World) (e : Event) : World :=
  { w with log := w.log ++ [e] }

def fsm_sendFailure (type : FailureType) (text : Option String)
    (w : World) : World :=
  w.emit (.failure type text)

def fsm_sendSuccess (text : String) (w : World) : World :=
  w.emit (.success text)

def msg_write (r : Response) (w : World) : World :=
  w.emit (.msg_write r)

def draw (s : Screen) (w : World) : World :=
  w.emit (.screen s)

def layoutHome (w : World) : World :=
  draw .layoutHome w

/-- A call that waits for the user: the answer is the next one of
`env.answer`. -/
def ask (env : Env) (p : Prompt) (w : World) : Bool × World :=
  (env.answer w.prompts,
    { log := w.log ++ [.prompt p], prompts := w.prompts + 1 })

def protectButton (env : Env) (type : ButtonRequestType)
    (confirm_only : Bool) (w : World) : Bool × World :=
  ask env (.protectButton type confirm_only) w

/-- The messages among the events: failures, successes and responses. -/
def Event.isTerminal : Event → Bool
  | .failure _ _ => true
  | .success _ => true
  | .msg_write _ => true
  | _ => false

/-- The event is a failure message. -/
def Event.isFailure : Event → Bool
  | .failure _ _ => true
  | _ => false

/-- The messages a log holds, in order. -/
def messages (log : List Event) : List Event :=
  log.filter Event.isTerminal

/-! ## Constants and helpers that live outside `fsm_msg_coin.h` -/

/-- Modelled from the spec: the constant `PATH_HARDENED`, "hardened bit = high
bit set" of a 32-bit path component. -/
def PATH_HARDENED : Nat := 0x80000000

/-- Modelled from the spec: the constant `PATH_SLIP25_PURPOSE`, the hardened
purpose `10025'` of SLIP-25 paths. -/
def PATH_SLIP25_PURPOSE : Nat := PATH_HARDENED ||| 10025

/-- Modelled from the spec: the macro `CHECK_INITIALIZED`, "device has a seed;
otherwise `Failure_NotInitialized`", short-circuiting the handler with a
failure and the idle screen. The flag tells whether the gate passes; the world
is the one the handler goes on with, or returns with. -/
def CHECK_INITIALIZED (env : Env) (w : World) : Bool × World :=
  if env.config_isInitialized then (true, w)
  else (false, layoutHome (fsm_sendFailure .Failure_NotInitialized none w))

/-- Modelled from the spec: the macro `CHECK_PIN`, "PIN verified; otherwise
invoke PIN protection flow, which itself may cancel", short-circuiting the
handler with a failure and the idle screen. -/
def CHECK_PIN (env : Env) (w : World) : Bool × World :=
  if env.protectPin then (true, w)
  else (false, layoutHome
    (fsm_sendFailure env.pinFailure (env.helperText "protectPin") w))

/-- Modelled from the spec: the macro `CHECK_PARAM(cond, msg)`, "generic
precondition; on failure sends `Failure_DataError` with `msg`", followed by the
idle screen. -/
def CHECK_PARAM (cond : Bool) (errormsg : String) (w : World) :
    Bool × World :=
  if cond then (true, w)
  else (false, layoutHome
    (fsm_sendFailure .Failure_DataError (some errormsg) w))

/-- Modelled from the spec: `fsm_getCoin`, "resolves an optional coin-name
string into a `CoinInfo`; missing match emits `Failure_DataError` and the
handler aborts". -/
def fsm_getCoin (env : Env) (has_name : Bool) (name : String) (w : World) :
    Option CoinInfo × World :=
  match env.coinByName has_name name with
  | some coin => (some coin, w)
  | none =>
    (none, layoutHome
      (fsm_sendFailure .Failure_DataError (env.helperText "fsm_getCoin") w))

/-- Modelled from the spec: `fsm_getDerivedNode`, "takes a curve name and path,
returns a derived node plus optional fingerprint of the parent; errors
propagate as a single failure mode" (`Failure_ProcessError`). -/
def fsm_getDerivedNode (env : Env) (curve : String) (address_n : List Nat)
    (w : World) : Option (HDNode × Nat) × World :=
  match env.deriveNode curve address_n with
  | some r => (some r, w)
  | none =>
    (none, layoutHome
      (fsm_sendFailure .Failure_ProcessError
        (env.helperText "fsm_getDerivedNode") w))

/-- Modelled from the spec: `fsm_layoutPathWarning`, "run the path-warning
confirmation UI; return its boolean"; a negative answer yields an
`ActionCancelled` failure. -/
def fsm_layoutPathWarning (env : Env) (w : World) : Bool × World :=
  let a := ask env .fsm_layoutPathWarning w
  if a.1 then (true, a.2)
  else (false, fsm_sendFailure .Failure_ActionCancelled none a.2)

/-- Modelled from the spec: `fsm_layoutAddress`, the address confirmation;
"on cancel at any prompt, abort with `ActionCancelled`" and the idle
screen. -/
def fsm_layoutAddress (env : Env) (address : String) (desc : List Nat)
    (is_cashaddr : Bool) (skip_len : Nat) (multisig_index : Int)
    (multisig_xpub_magic : Nat) (w : World) : Bool × World :=
  let a := ask env
    (.fsm_layoutAddress address desc is_cashaddr skip_len multisig_index
      multisig_xpub_magic) w
  if a.1 then (true, a.2)
  else (false, layoutHome (fsm_sendFailure .Failure_ActionCancelled none a.2))

/-- Modelled from the spec: `fsm_layoutSignMessage`, a suspension point of
the user-confirmation protocol "returning a boolean"; it emits no message. -/
def fsm_layoutSignMessage (env : Env) (message : List Nat) (w : World) :
    Bool × World :=
  ask env (.fsm_layoutSignMessage message) w

/-- Modelled from the spec: `fsm_layoutVerifyMessage`, a suspension point of
the user-confirmation protocol "returning a boolean"; it emits no message. -/
def fsm_layoutVerifyMessage (env : Env) (message : List Nat) (w : World) :
    Bool × World :=
  ask env (.fsm_layoutVerifyMessage message) w

/-- Modelled from the spec: `fsm_layoutCommitmentData`, the prompt "for
`commitment_data` hash confirmation", a suspension point "returning a
boolean"; it emits no message. -/
def fsm_layoutCommitmentData (env : Env) (data : List Nat) (w : World) :
    Bool × World :=
  ask env (.fsm_layoutCommitmentData data) w

/-- Modelled from the spec: `fsm_getSlip21Key`, the SLIP-0021 key derived from
the device seed; a failed derivation emits one failure and the idle screen. The
key is what the 32-byte out buffer holds afterwards. -/
def fsm_getSlip21Key (env : Env) (path : List String) (key : List Nat)
    (w : World) : Bool × List Nat × World :=
  match env.slip21Key path with
  | some k => (true, writeAt key 0 (readBytes k 32), w)
  | none =>
    (false, key, layoutHome
      (fsm_sendFailure .Failure_ProcessError
        (env.helperText "fsm_getSlip21Key") w))

/-- Modelled from the spec: `ser_length`, "Bitcoin's length-encoded compact
integer"; the bytes written, whose number is the C return value. -/
def ser_length (len : Nat) : List Nat :=
  if len < 253 then [len % 256]
  else if len < 0x10000 then [253, len % 256, len / 256 % 256]
  else [254, len % 256, len / 256 % 256, len / 65536 % 256,
    len / 16777216 % 256]

/-- Modelled from the spec: `tx_script_hash`, which feeds the hasher the
"appropriate Bitcoin script length prefix" and then the data; the bytes fed. -/
def tx_script_hash (size : Nat) (data : List Nat) : List Nat :=
  ser_length size ++ readBytes data size

/-- The C conversion of a comparison result to `int`. -/
def cInt (b : Bool) : Nat := if b then 1 else 0

/-- The C call `strlcpy(dst, src, size)` on character codes. -/
def strlcpy (dst src : List Nat) (size : Nat) : List Nat :=
  if size = 0 then dst else writeAt dst 0 (src.take (size - 1) ++ [0])

/-- The C string a character buffer holds: the codes before the first NUL. -/
def cstr (buf : List Nat) : List Nat := buf.takeWhile (fun c => c != 0)

/-- The character codes of a string literal. -/
def lit (s : String) : List Nat := s.toList.map Char.toNat

/-! ## The handlers of `fsm_msg_coin.h` -/

/-- The C idiom `x = f(...); if (!x) return;` for a pointer result: the handler
goes on with the value, or returns `abort` when there is none. -/
def orReturn {α β : Type} (o : Option α) (abort : β) (k : α → β) : β :=
  match o with
  | some a => k a
  | none => abort

/-- The zeroed response buffer `RESP_INIT(PublicKey)` hands the handler. -/
def PublicKey.init : PublicKey :=
  { node := { depth := 0, fingerprint := 0, child_num := 0,
              chain_code := Bytes.zero, has_private_key := false,
              private_key := Bytes.zero, public_key := Bytes.zero },
    xpub := "", has_root_fingerprint := false, root_fingerprint := 0 }

/-- The loop `for (page = 0; page < 2; page++)` of `fsm_msgGetPublicKey` over
the pages still to show: `false` as soon as the user cancels a page. -/
def xpubPages (env : Env) (xpub : String) : List Nat → World → Bool × World
  | [], w => (true, w)
  | page :: rest, w =>
    let w := draw (.layoutXPUB xpub page) w
    let b := protectButton env .ButtonRequest_PublicKey true w
    if !b.1 then (false, b.2) else xpubPages env xpub rest b.2

/-- The branch of the xpub-magic chain of `fsm_msgGetPublicKey` (lines 77-108)
that is taken: the version passed to `hdnode_serialize_public`, or `none` for
the final `else`. -/
def xpubMagic (coin : CoinInfo) (script_type : InputScriptType)
    (ignore_xpub_magic : Bool) : Option Nat :=
  if coin.xpub_magic ≠ 0 ∧ (script_type = .SPENDADDRESS ∨
      script_type = .SPENDMULTISIG) then
    some coin.xpub_magic
  else if coin.has_segwit ∧ script_type = .SPENDP2SHWITNESS ∧
      ¬ ignore_xpub_magic ∧ coin.xpub_magic_segwit_p2sh ≠ 0 then
    some coin.xpub_magic_segwit_p2sh
  else if coin.has_segwit ∧ script_type = .SPENDP2SHWITNESS ∧
      ignore_xpub_magic ∧ coin.xpub_magic ≠ 0 then
    some coin.xpub_magic
  else if coin.has_segwit ∧ script_type = .SPENDWITNESS ∧
      ¬ ignore_xpub_magic ∧ coin.xpub_magic_segwit_native ≠ 0 then
    some coin.xpub_magic_segwit_native
  else if coin.has_segwit ∧ script_type = .SPENDWITNESS ∧
      ignore_xpub_magic ∧ coin.xpub_magic ≠ 0 then
    some coin.xpub_magic
  else if coin.has_taproot ∧ script_type = .SPENDTAPROOT ∧
      coin.xpub_magic ≠ 0 then
    some coin.xpub_magic
  else
    none

def fsm_msgGetPublicKey (env : Env) (msg : GetPublicKey) (w : World) :
    World × PublicKey :=
  let resp := PublicKey.init
  let gi := CHECK_INITIALIZED env w
  if !gi.1 then (gi.2, resp) else
  let gp := CHECK_PIN env gi.2
  if !gp.1 then (gp.2, resp) else
  let w := gp.2
  let script_type :=
    if msg.has_script_type then msg.script_type else .SPENDADDRESS
  let c := fsm_getCoin env msg.has_coin_name msg.coin_name w
  orReturn c.1 (c.2, resp) fun coin =>
  let w := c.2
  let curve :=
    if msg.has_ecdsa_curve_name then msg.ecdsa_curve_name else coin.curve_name
  -- Do not allow access to SLIP25 paths.
  if msg.address_n.length > 0 ∧ msg.address_n.headD 0 = PATH_SLIP25_PURPOSE ∧
      env.config_getSafetyCheckLevel = .Strict then
    (layoutHome
      (fsm_sendFailure .Failure_DataError (some "Forbidden key path") w), resp)
  else
  -- derive m/0' to obtain root_fingerprint
  let d0 := fsm_getDerivedNode env curve [PATH_HARDENED ||| 0] w
  orReturn d0.1 (d0.2, resp) fun nf0 =>
  let root_fingerprint := nf0.2
  let d := fsm_getDerivedNode env curve msg.address_n d0.2
  orReturn d.1 (d.2, resp) fun nf =>
  let node0 := nf.1
  let fingerprint := nf.2
  let w := d.2
  let f := env.hdnode_fill_public_key node0
  let node := f.2
  if f.1 ≠ 0 then
    (layoutHome
      (fsm_sendFailure .Failure_ProcessError
        (some "Failed to derive public key") w), resp)
  else
  let public_key : List Nat := writeAt [] 0 (readBytes node.public_key 33)
  let resp : PublicKey := { resp with
    node := { resp.node with
      depth := node.depth
      fingerprint := fingerprint
      child_num := node.child_num
      chain_code := ⟨32, writeAt [] 0 (readBytes node.chain_code 32)⟩
      has_private_key := false
      public_key := ⟨33,
        if node.public_key.headD 0 = 1 then writeAt public_key 0 [0]
        else public_key⟩ } }
  orReturn (xpubMagic coin script_type msg.ignore_xpub_magic)
    (layoutHome
      (fsm_sendFailure .Failure_DataError
        (some "Invalid combination of coin and script_type") w), resp)
    fun magic =>
  let w := w.emit (.call (.hdnode_serialize_public fingerprint magic))
  let resp := { resp with
    xpub := env.hdnode_serialize_public node fingerprint magic }
  let shown :=
    if msg.has_show_display ∧ msg.show_display then
      xpubPages env resp.xpub [0, 1] w
    else (true, w)
  if !shown.1 then
    (layoutHome (fsm_sendFailure .Failure_ActionCancelled none shown.2),
      PublicKey.init)
  else
  let resp := { resp with
    has_root_fingerprint := true
    root_fingerprint := root_fingerprint }
  (layoutHome (msg_write (.MessageType_PublicKey resp) shown.2), resp)

def fsm_msgSignTx (env : Env) (msg : SignTx) (w : World) : World :=
  let gi := CHECK_INITIALIZED env w
  if !gi.1 then gi.2 else
  let g1 := CHECK_PARAM (decide (msg.inputs_count > 0))
    "Transaction must have at least one input" gi.2
  if !g1.1 then g1.2 else
  let g2 := CHECK_PARAM (decide (msg.outputs_count > 0))
    "Transaction must have at least one output" g1.2
  if !g2.1 then g2.2 else
  let g3 := CHECK_PARAM
    (decide ((msg.inputs_count + msg.outputs_count) % 2 ^ 32 ≥
      msg.inputs_count))
    "Value overflow" g2.2
  if !g3.1 then g3.2 else
  let gp := CHECK_PIN env g3.2
  if !gp.1 then gp.2 else
  let c := fsm_getCoin env msg.has_coin_name msg.coin_name gp.2
  orReturn c.1 c.2 fun coin =>
  let g4 := CHECK_PARAM ((coin.decred || coin.overwintered) || !msg.has_expiry)
    "Expiry not enabled on this coin." c.2
  if !g4.1 then g4.2 else
  let g5 := CHECK_PARAM (coin.timestamp || !msg.has_timestamp)
    "Timestamp not enabled on this coin." g4.2
  if !g5.1 then g5.2 else
  let g6 := CHECK_PARAM (!coin.timestamp || decide (msg.timestamp ≠ 0))
    "Timestamp must be set." g5.2
  if !g6.1 then g6.2 else
  let d := fsm_getDerivedNode env coin.curve_name [] g6.2
  orReturn d.1 d.2 fun nf =>
  let node := nf.1
  d.2.emit (.call (.signing_init msg coin node))

def fsm_checkCoinPath (env : Env) (coin : CoinInfo)
    (script_type : InputScriptType) (address_n : List Nat)
    (has_multisig show_warning : Bool) (w : World) : Bool × World :=
  if env.coin_path_check coin script_type address_n has_multisig true then
    (true, w)
  else if env.config_getSafetyCheckLevel = .Strict ∧
      ¬ env.coin_path_check coin script_type address_n has_multisig false then
    (false, fsm_sendFailure .Failure_DataError (some "Forbidden key path") w)
  else if show_warning then
    fsm_layoutPathWarning env w
  else
    (true, w)

def fsm_checkScriptType (env : Env) (coin : CoinInfo)
    (script_type : InputScriptType) (w : World) : Bool × World :=
  if !env.is_internal_input_script_type script_type then
    (false, fsm_sendFailure .Failure_DataError (some "Invalid script type") w)
  else if env.is_segwit_input_script_type script_type ∧ ¬ coin.has_segwit then
    (false, fsm_sendFailure .Failure_DataError
      (some "Segwit not enabled on this coin") w)
  else if script_type = .SPENDTAPROOT ∧ ¬ coin.has_taproot then
    (false, fsm_sendFailure .Failure_DataError
      (some "Taproot not enabled on this coin") w)
  else
    (true, w)

def fsm_msgVerifyMessage (env : Env) (msg : VerifyMessage) (w : World) :
    World :=
  let c := fsm_getCoin env msg.has_coin_name msg.coin_name w
  orReturn c.1 c.2 fun coin =>
  let w := draw (.layoutProgressSwipe "Verifying") c.2
  if msg.signature.size ≠ 65 then
    layoutHome
      (fsm_sendFailure .Failure_ProcessError (some "Invalid signature") w)
  else
  let w := w.emit (.call .cryptoMessageVerify)
  let result := env.cryptoMessageVerify coin
    (readBytes msg.message.bytes msg.message.size) msg.address
    msg.signature.bytes
  if result = 0 then
    let w := draw (.layoutVerifyAddress msg.address) w
    let b := protectButton env .ButtonRequest_Other false w
    if !b.1 then
      layoutHome (fsm_sendFailure .Failure_ActionCancelled none b.2)
    else
    let v := fsm_layoutVerifyMessage env
      (readBytes msg.message.bytes msg.message.size) b.2
    if !v.1 then
      layoutHome (fsm_sendFailure .Failure_ActionCancelled none v.2)
    else
    let w := draw (.layoutDialogSwipe "The signature is valid.") v.2
    let b := protectButton env .ButtonRequest_Other true w
    if !b.1 then
      layoutHome (fsm_sendFailure .Failure_ActionCancelled none b.2)
    else
    layoutHome (fsm_sendSuccess "Message verified" b.2)
  else if result = 1 then
    layoutHome
      (fsm_sendFailure .Failure_DataError (some "Invalid address") w)
  else
    layoutHome
      (fsm_sendFailure .Failure_ProcessError (some "Invalid signature") w)

/-- The zeroed response buffer `RESP_INIT(Address)` hands the handler. -/
def Address.init : Address := { address := "" }

/-- The C call `strlcpy(dst, src, size)` into a zeroed string buffer. -/
def strlcpyString (src : String) (size : Nat) : String :=
  String.mk (src.toList.take (size - 1))

/-- The `desc` buffer of `fsm_msgGetAddress` after lines 247-261. -/
def addressDesc (env : Env) (msg : GetAddress) : List Nat :=
  let desc : List Nat := List.replicate 20 0
  if msg.has_multisig then
    let desc := strlcpy desc (lit "Multisig __ of __:") 20
    let m := msg.multisig.m
    let n := env.cryptoMultisigPubkeyCount msg.multisig
    let desc := desc.set 9
      (if m < 10 then Char.toNat ' ' else (Char.toNat '0' + m / 10) % 256)
    let desc := desc.set 10 ((Char.toNat '0' + m % 10) % 256)
    let desc := desc.set 15
      (if n < 10 then Char.toNat ' ' else (Char.toNat '0' + n / 10) % 256)
    let desc := desc.set 16 ((Char.toNat '0' + n % 10) % 256)
    desc
  else
    strlcpy desc (lit "Address:") 20

/-- The `multisig_xpub_magic` of `fsm_msgGetAddress` (lines 263-274). -/
def multisigXpubMagic (coin : CoinInfo) (msg : GetAddress) : Nat :=
  if msg.has_multisig ∧ coin.has_segwit then
    if ¬ msg.has_ignore_xpub_magic ∨ ¬ msg.ignore_xpub_magic then
      if msg.script_type = .SPENDWITNESS ∧
          coin.xpub_magic_segwit_native ≠ 0 then
        coin.xpub_magic_segwit_native
      else if msg.script_type = .SPENDP2SHWITNESS ∧
          coin.xpub_magic_segwit_p2sh ≠ 0 then
        coin.xpub_magic_segwit_p2sh
      else coin.xpub_magic
    else coin.xpub_magic
  else coin.xpub_magic

def fsm_msgGetAddress (env : Env) (msg : GetAddress) (w : World) :
    World × Address :=
  let resp := Address.init
  let gi := CHECK_INITIALIZED env w
  if !gi.1 then (gi.2, resp) else
  let gp := CHECK_PIN env gi.2
  if !gp.1 then (gp.2, resp) else
  let w := gp.2
  let c := fsm_getCoin env msg.has_coin_name msg.coin_name w
  orReturn c.1 (c.2, resp) fun coin =>
  let p := fsm_checkCoinPath env coin msg.script_type msg.address_n
    msg.has_multisig msg.show_display c.2
  if !p.1 then (layoutHome p.2, resp) else
  let d := fsm_getDerivedNode env coin.curve_name msg.address_n p.2
  orReturn d.1 (d.2, resp) fun nf =>
  let node0 := nf.1
  let w := d.2
  let f := env.hdnode_fill_public_key node0
  let node := f.2
  if f.1 ≠ 0 then
    (layoutHome
      (fsm_sendFailure .Failure_ProcessError
        (some "Failed to derive public key") w), resp)
  else
  -- use progress bar only for multisig
  let w := if msg.has_multisig then draw (.layoutProgress "Computing address") w
    else w
  let a := env.compute_address coin msg.script_type node msg.has_multisig
    (some msg.multisig)
  let address := a.2
  if !a.1 then
    (layoutHome
      (fsm_sendFailure .Failure_DataError (some "Can't encode address") w),
      resp)
  else
  let shown :=
    if msg.has_show_display ∧ msg.show_display then
      let desc := addressDesc env msg
      let multisig_index : Int :=
        if msg.has_multisig then
          env.cryptoMultisigPubkeyIndex coin msg.multisig node.public_key
        else 0
      let multisig_xpub_magic := multisigXpubMagic coin msg
      let is_cashaddr := (CoinInfo.cashaddr_prefix coin).isSome
      fsm_layoutAddress env address (cstr desc) is_cashaddr
        (match CoinInfo.cashaddr_prefix coin with
          | some pre => pre.length + 1
          | none => 0)
        multisig_index multisig_xpub_magic w
    else (true, w)
  if !shown.1 then (shown.2, resp) else
  let resp := { resp with
    address := strlcpyString address env.sizeof_Address_address }
  (layoutHome (msg_write (.MessageType_Address resp) shown.2), resp)

/-- The zeroed response buffer `RESP_INIT(MessageSignature)` hands the
handler. -/
def MessageSignature.init : MessageSignature :=
  { address := "", signature := Bytes.zero }

def fsm_msgSignMessage (env : Env) (msg : SignMessage) (w : World) :
    World × MessageSignature :=
  let resp := MessageSignature.init
  let gi := CHECK_INITIALIZED env w
  if !gi.1 then (gi.2, resp) else
  let gp := CHECK_PIN env gi.2
  if !gp.1 then (gp.2, resp) else
  let w := gp.2
  let c := fsm_getCoin env msg.has_coin_name msg.coin_name w
  orReturn c.1 (c.2, resp) fun coin =>
  let p := fsm_checkCoinPath env coin msg.script_type msg.address_n
    false true c.2
  if !p.1 then (layoutHome p.2, resp) else
  let d := fsm_getDerivedNode env coin.curve_name msg.address_n p.2
  orReturn d.1 (d.2, resp) fun nf =>
  let node0 := nf.1
  let w := d.2
  let f := env.hdnode_fill_public_key node0
  let node := f.2
  if f.1 ≠ 0 then
    (layoutHome
      (fsm_sendFailure .Failure_ProcessError
        (some "Failed to derive public key") w), resp)
  else
  let a := env.compute_address coin msg.script_type node false none
  let resp := { resp with address := a.2 }
  if !a.1 then
    (layoutHome
      (fsm_sendFailure .Failure_ProcessError
        (some "Error computing address") w), resp)
  else
  let w := draw (.layoutVerifyAddress resp.address) w
  let b := protectButton env .ButtonRequest_Other false w
  if !b.1 then
    (layoutHome (fsm_sendFailure .Failure_ActionCancelled none b.2), resp)
  else
  let l := fsm_layoutSignMessage env
    (readBytes msg.message.bytes msg.message.size) b.2
  if !l.1 then
    (layoutHome (fsm_sendFailure .Failure_ActionCancelled none l.2), resp)
  else
  let w := draw (.layoutProgressSwipe "Signing") l.2
  let w := w.emit (.call .cryptoMessageSign)
  let s := env.cryptoMessageSign coin node msg.script_type msg.no_script_type
    (readBytes msg.message.bytes msg.message.size)
  let resp := { resp with signature := { resp.signature with bytes := s.2 } }
  if s.1 = 0 then
    let resp := { resp with signature := { resp.signature with size := 65 } }
    (layoutHome (msg_write (.MessageType_MessageSignature resp) w), resp)
  else
    (layoutHome
      (fsm_sendFailure .Failure_ProcessError
        (some "Error signing message") w), resp)

/-- The value of `sizeof(ownership_id)` for `uint8_t ownership_id[32]`. -/
def sizeof_ownership_id : Nat := 32

def fsm_getOwnershipId (env : Env) (script_pubkey : List Nat)
    (ownership_id : List Nat) (w : World) : Bool × List Nat × World :=
  let OWNERSHIP_ID_KEY_PATH := ["SLIP-0019", "Ownership identification key"]
  let ownership_id_key : List Nat := List.replicate 32 0
  let k := fsm_getSlip21Key env OWNERSHIP_ID_KEY_PATH ownership_id_key w
  if !k.1 then (false, ownership_id, k.2.2) else
  (true,
    writeAt ownership_id 0
      (readBytes (env.hmac_sha256 (readBytes k.2.1 32) script_pubkey) 32),
    k.2.2)

/-- The zeroed response buffer `RESP_INIT(OwnershipId)` hands the handler. -/
def OwnershipId.init : OwnershipId := { ownership_id := Bytes.zero }

def fsm_msgGetOwnershipId (env : Env) (msg : GetOwnershipId) (w : World) :
    World × OwnershipId :=
  let resp := OwnershipId.init
  let gi := CHECK_INITIALIZED env w
  if !gi.1 then (gi.2, resp) else
  let gp := CHECK_PIN env gi.2
  if !gp.1 then (gp.2, resp) else
  let w := gp.2
  let c := fsm_getCoin env msg.has_coin_name msg.coin_name w
  orReturn c.1 (c.2, resp) fun coin =>
  let p := fsm_checkCoinPath env coin msg.script_type msg.address_n
    msg.has_multisig false c.2
  if !p.1 then (layoutHome p.2, resp) else
  let t := fsm_checkScriptType env coin msg.script_type p.2
  if !t.1 then (layoutHome t.2, resp) else
  let d := fsm_getDerivedNode env coin.curve_name msg.address_n t.2
  orReturn d.1 (d.2, resp) fun nf =>
  let node0 := nf.1
  let w := d.2
  let g := env.get_script_pubkey coin node0 msg.has_multisig msg.multisig
    msg.script_type
  orReturn g.1
    (layoutHome
      (fsm_sendFailure .Failure_ProcessError
        (some "Failed to derive scriptPubKey") w), resp)
    fun script_pubkey =>
  let o := fsm_getOwnershipId env script_pubkey resp.ownership_id.bytes w
  let resp := { resp with
    ownership_id := { resp.ownership_id with bytes := o.2.1 } }
  if !o.1 then (o.2.2, resp) else
  let resp := { resp with
    ownership_id := { resp.ownership_id with size := 32 } }
  (layoutHome (msg_write (.MessageType_OwnershipId resp) o.2.2), resp)

/-- The zeroed response buffer `RESP_INIT(OwnershipProof)` hands the
handler. -/
def OwnershipProof.init : OwnershipProof :=
  { ownership_proof := Bytes.zero, signature := Bytes.zero }

/-- The condition of the ownership-id check of `fsm_msgGetOwnershipProof`
(lines 513-517): the request is rejected when it holds. -/
def ownershipIdsRejected (ownership_id : List Nat) (ownership_ids : List Bytes) :
    Bool :=
  decide (ownership_ids.length ≠ 0) &&
    (decide (ownership_ids.length ≠ 1) ||
      decide ((ownership_ids.headD Bytes.zero).size ≠ sizeof_ownership_id) ||
      decide (memcmp ownership_id (ownership_ids.headD Bytes.zero).bytes
        (cInt (decide (sizeof_ownership_id ≠ 0))) ≠ 0))

/-- Lines 547-554 of `fsm_msgGetOwnershipProof`: the prefix written into
`ownership_proof.bytes`, with the write position `r` after it. -/
def proofPrefix (bytes : List Nat) (flags : Nat) (ownership_id : List Nat) :
    List Nat × Nat :=
  let r := 0
  let bytes := writeAt bytes r [0x53, 0x4C, 0x00, 0x19]
  let r := r + 4
  let bytes := writeAt bytes r [flags]
  let r := r + 1
  let bytes := writeAt bytes r (ser_length 1)
  let r := r + (ser_length 1).length
  let bytes := writeAt bytes r (readBytes ownership_id sizeof_ownership_id)
  let r := r + sizeof_ownership_id
  (bytes, r)

def fsm_msgGetOwnershipProof (env : Env) (msg : GetOwnershipProof)
    (w : World) : World × OwnershipProof :=
  let resp := OwnershipProof.init
  let gi := CHECK_INITIALIZED env w
  if !gi.1 then (gi.2, resp) else
  let gp := CHECK_PIN env gi.2
  if !gp.1 then (gp.2, resp) else
  let w := gp.2
  if msg.has_multisig then
    -- The legacy implementation currently only supports singlesig native
    -- segwit v0 and v1, the bare minimum for CoinJoin.
    (layoutHome
      (fsm_sendFailure .Failure_DataError (some "Multisig not supported.") w),
      resp)
  else
  let c := fsm_getCoin env msg.has_coin_name msg.coin_name w
  orReturn c.1 (c.2, resp) fun coin =>
  let p := fsm_checkCoinPath env coin msg.script_type msg.address_n
    msg.has_multisig false c.2
  if !p.1 then (layoutHome p.2, resp) else
  let t := fsm_checkScriptType env coin msg.script_type p.2
  if !t.1 then (layoutHome t.2, resp) else
  let d := fsm_getDerivedNode env coin.curve_name msg.address_n t.2
  orReturn d.1 (d.2, resp) fun nf =>
  let node0 := nf.1
  let w := d.2
  let g := env.get_script_pubkey coin node0 msg.has_multisig msg.multisig
    msg.script_type
  let node := g.2
  orReturn g.1
    (layoutHome
      (fsm_sendFailure .Failure_ProcessError
        (some "Failed to derive scriptPubKey") w), resp)
    fun script_pubkey =>
  let o := fsm_getOwnershipId env script_pubkey
    (List.replicate sizeof_ownership_id 0) w
  let ownership_id := o.2.1
  if !o.1 then (o.2.2, resp) else
  let w := o.2.2
  -- Providing an ownership ID is optional in case of singlesig, but if one is
  -- provided, then it should match.
  if ownershipIdsRejected ownership_id msg.ownership_ids then
    (layoutHome
      (fsm_sendFailure .Failure_DataError
        (some "Invalid ownership identifier") w), resp)
  else
  -- In order to set the "user confirmation" bit in the proof, the user must
  -- actually confirm.
  let flags : Nat := if msg.user_confirmation then 0 ||| 1 else 0
  let confirmed : Bool × World :=
    if msg.user_confirmation then
      let w := draw .layoutConfirmOwnershipProof w
      let b := protectButton env .ButtonRequest_ProtectCall false w
      if !b.1 then (false, b.2)
      else if msg.has_commitment_data then
        fsm_layoutCommitmentData env
          (readBytes msg.commitment_data.bytes msg.commitment_data.size) b.2
      else (true, b.2)
    else (true, w)
  if !confirmed.1 then
    (layoutHome (fsm_sendFailure .Failure_ActionCancelled none confirmed.2),
      resp)
  else
  let w := confirmed.2
  let pre := proofPrefix resp.ownership_proof.bytes flags ownership_id
  let r := pre.2
  let resp := { resp with
    ownership_proof := { resp.ownership_proof with bytes := pre.1 } }
  let digest := env.sha256
    (readBytes resp.ownership_proof.bytes r ++
      tx_script_hash script_pubkey.length script_pubkey ++
      tx_script_hash msg.commitment_data.size msg.commitment_data.bytes)
  if msg.script_type = .SPENDWITNESS then
    let w := w.emit (.call .tx_sign_ecdsa)
    let s := env.tx_sign_ecdsa coin node.private_key digest
    let resp := { resp with signature := s.2 }
    if !s.1 then
      (layoutHome
        (fsm_sendFailure .Failure_ProcessError (some "Signing failed") w),
        resp)
    else
    -- Empty scriptSig.
    let bytes := writeAt resp.ownership_proof.bytes r (ser_length 0)
    let r := r + (ser_length 0).length
    let wit := env.serialize_p2wpkh_witness resp.signature.bytes
      resp.signature.size node.public_key 33 env.SIGHASH_ALL
    let bytes := writeAt bytes r wit
    let r := r + wit.length
    let resp := { resp with ownership_proof := ⟨r, bytes⟩ }
    (layoutHome (msg_write (.MessageType_OwnershipProof resp) w), resp)
  else if msg.script_type = .SPENDTAPROOT then
    let w := w.emit (.call .tx_sign_bip340)
    let s := env.tx_sign_bip340 node.private_key digest
    let resp := { resp with signature := s.2 }
    if !s.1 then
      (layoutHome
        (fsm_sendFailure .Failure_ProcessError (some "Signing failed") w),
        resp)
    else
    -- Empty scriptSig.
    let bytes := writeAt resp.ownership_proof.bytes r (ser_length 0)
    let r := r + (ser_length 0).length
    let wit := env.serialize_p2tr_witness resp.signature.bytes
      resp.signature.size 0
    let bytes := writeAt bytes r wit
    let r := r + wit.length
    let resp := { resp with ownership_proof := ⟨r, bytes⟩ }
    (layoutHome (msg_write (.MessageType_OwnershipProof resp) w), resp)
  else
    (layoutHome
      (fsm_sendFailure .Failure_DataError (some "Unsupported script type.") w),
      resp)

/-! ## Concrete collaborators used to evaluate the handlers -/

/-- A Bitcoin-like coin with segwit and taproot. -/
def exCoin : CoinInfo :=
  { coin_name := "Bitcoin", curve_name := "secp256k1",
    xpub_magic := 0x0488b21e, xpub_magic_segwit_p2sh := 0x049d7cb2,
    xpub_magic_segwit_native := 0x04b24746, has_segwit := true,
    has_taproot := true, decred := false, overwintered := false,
    timestamp := false, cashaddr_prefix := none }

/-- A derived node with recognisable key bytes. -/
def exNode : HDNode :=
  { depth := 3, child_num := 0x80000000, chain_code := List.replicate 32 7,
    private_key := List.replicate 32 9, public_key := 2 :: List.replicate 32 5 }

/-- An environment in which the device is initialized and unlocked, the
collaborators succeed and the user accepts the prompts. -/
def exEnv : Env :=
  { config_isInitialized := true
    protectPin := true
    pinFailure := .Failure_PinCancelled
    config_getSafetyCheckLevel := .Strict
    coinByName := fun _ _ => some exCoin
    helperText := fun _ => none
    coin_path_check := fun _ _ _ _ _ => true
    is_internal_input_script_type := fun t => t != .EXTERNAL
    is_segwit_input_script_type := fun t =>
      t == .SPENDP2SHWITNESS || t == .SPENDWITNESS
    deriveNode := fun _ _ => some (exNode, 0x12345678)
    hdnode_fill_public_key := fun n => (0, n)
    hdnode_serialize_public := fun _ _ _ => "xpub"
    compute_address := fun _ _ _ _ _ => (true, "bc1q")
    cryptoMultisigPubkeyCount := fun m => m.pubkeys.length
    cryptoMultisigPubkeyIndex := fun _ _ _ => 0
    cryptoMessageSign := fun _ _ _ _ _ => (0, List.replicate 65 1)
    cryptoMessageVerify := fun _ _ _ _ => 0
    slip21Key := fun _ => some (List.replicate 32 3)
    hmac_sha256 := fun _ _ => List.range 32
    get_script_pubkey := fun _ n _ _ _ => (some [0, 20, 1, 2, 3], n)
    sha256 := fun _ => List.replicate 32 4
    tx_sign_ecdsa := fun _ _ _ => (true, ⟨2, [48, 6]⟩)
    tx_sign_bip340 := fun _ _ => (true, ⟨2, [8, 8]⟩)
    serialize_p2wpkh_witness := fun sig _ pk _ h => [2] ++ sig ++ [h] ++ pk
    serialize_p2tr_witness := fun sig _ _ => [1] ++ sig
    SIGHASH_ALL := 1
    sizeof_Address_address := 130
    answer := fun _ => true }

/-- The world before a request: nothing emitted, no prompt answered. -/
def World.init : World := { log := [], prompts := 0 }

/-- A SignTx request whose counts sum to `2^32`. -/
def exOverflowTx : SignTx :=
  { outputs_count := 1, inputs_count := 4294967295, has_coin_name := false,
    coin_name := "", has_expiry := false, has_timestamp := false,
    timestamp := 0 }

/-- A VerifyMessage request with a 65-byte signature. -/
def exVerify : VerifyMessage :=
  { address := "1BoatSLRHtKNngkdXEeobR76b53LETtpyT",
    signature := ⟨65, List.replicate 65 1⟩, message := ⟨2, [104, 105]⟩,
    has_coin_name := false, coin_name := "" }

/-- The number of messages (failures, successes, responses) in the log. -/
def tcount (w : World) : Nat := (messages w.log).length

/-- The responses handed to `msg_write`, in order. -/
def responses : List Event → List Response
  | [] => []
  | .msg_write r :: l => r :: responses l
  | _ :: l => responses l

/-- The failures sent, in order. -/
def failures : List Event → List (FailureType × Option String)
  | [] => []
  | .failure t x :: l => (t, x) :: failures l
  | _ :: l => failures l

/-! ## Lemmas on the gates and helpers -/

/-- The run of a handler appends events of which exactly one is a message (a
failure, a success or a response). -/
def OneTerminal (run : World → World) : Prop :=
  ∀ w, ∃ new, (run w).log = w.log ++ new ∧ (messages new).length = 1

/-- The calls into the crypto library and the signing engine, in order. -/
def calls : List Event → List Call
  | [] => []
  | .call c :: l => c :: calls l
  | _ :: l => calls l

/-- A GetOwnershipProof request for a native segwit path that supplies one
32-byte ownership identifier: it agrees with the identifier `exEnv` computes,
`0, 1, …, 31`, in the first byte only. -/
def exWrongIdProof : GetOwnershipProof :=
  { address_n := [0x80000054, 0x80000000, 0x80000000, 1, 0],
    has_coin_name := false, coin_name := "", script_type := .SPENDWITNESS,
    has_multisig := false, multisig := ⟨0, []⟩, user_confirmation := false,
    ownership_ids := [⟨32, 0 :: List.replicate 31 255⟩],
    has_commitment_data := false, commitment_data := Bytes.zero }

/-- A coin with segwit that defines no version for P2SH-wrapped segwit. -/
def exCoinNoP2sh : CoinInfo := { exCoin with xpub_magic_segwit_p2sh := 0 }

/-- The environment `exEnv` with the coin `exCoinNoP2sh`. -/
def exEnvNoP2sh : Env := { exEnv with coinByName := fun _ _ => some exCoinNoP2sh }

/-- A GetPublicKey request for the P2SH-wrapped segwit script type. -/
def exPublicKeyP2sh : GetPublicKey :=
  { address_n := [0x80000031, 0x80000000, 0x80000000],
    has_ecdsa_curve_name := false, ecdsa_curve_name := "",
    has_show_display := false, show_display := false, has_coin_name := false,
    coin_name := "", has_script_type := true,
    script_type := .SPENDP2SHWITNESS, ignore_xpub_magic := false }

/-- Modelled from the spec's words: the §4.5 truth table, the magic it names
for a script type, the coin's segwit and taproot flags and `ignore_xpub_magic`;
`none` is the row "otherwise". -/
def tableMagic (coin : CoinInfo) (script_type : InputScriptType)
    (ignore_xpub_magic : Bool) : Option Nat :=
  match script_type with
  | .SPENDADDRESS => some coin.xpub_magic
  | .SPENDMULTISIG => some coin.xpub_magic
  | .SPENDP2SHWITNESS =>
    if coin.has_segwit then
      if ignore_xpub_magic then some coin.xpub_magic
      else some coin.xpub_magic_segwit_p2sh
    else none
  | .SPENDWITNESS =>
    if coin.has_segwit then
      if ignore_xpub_magic then some coin.xpub_magic
      else some coin.xpub_magic_segwit_native
    else none
  | .SPENDTAPROOT => if coin.has_taproot then some coin.xpub_magic else none
  | .EXTERNAL => none

/-- A GetOwnershipId request with a 2-of-3 multisig descriptor. -/
def exMultisigId : GetOwnershipId :=
  { address_n := [0x80000030, 0x80000000, 0x80000000, 0x80000002, 0, 0],
    has_coin_name := false, coin_name := "", has_multisig := true,
    multisig := ⟨2, [[2, 1], [2, 2], [2, 3]]⟩, script_type := .SPENDWITNESS }

/-- The environment `exEnv` with a user who declines every prompt. -/
def exEnvDecline : Env := { exEnv with answer := fun _ => false }

/-- A SignMessage request for a native segwit path. -/
def exSignMessage : SignMessage :=
  { address_n := [0x80000054, 0x80000000, 0x80000000, 0, 0],
    message := ⟨2, [104, 105]⟩, has_coin_name := false, coin_name := "",
    script_type := .SPENDWITNESS, no_script_type := false }

/-- The environment `exEnv` with an ECDSA signer that fails. -/
def exEnvNoSign : Env :=
  { exEnv with tx_sign_ecdsa := fun _ _ _ => (false, Bytes.zero) }

/-- A GetOwnershipProof request for a native segwit path. -/
def exProof : GetOwnershipProof :=
  { exWrongIdProof with ownership_ids := [] }

/-- The byte layout of an emitted ownership proof `r` for the request `msg`:
the first 38 bytes are `53 4C 00 19`, the flags byte, the compact integer `01`
and the 32-byte ownership identifier, that is the HMAC-SHA256 under the SLIP-21
key of the scriptPubKey derived for the node of the request; byte 38 is the
empty-scriptSig length `00`; the rest is what the witness serializer wrote, and
`size` is 39 plus the number of these bytes. -/
def ProofLayout (env : Env) (msg : GetOwnershipProof) (r : OwnershipProof) :
    Prop :=
  ∃ coin nf script_pubkey key wit,
    env.coinByName msg.has_coin_name msg.coin_name = some coin ∧
    env.deriveNode coin.curve_name msg.address_n = some nf ∧
    (env.get_script_pubkey coin nf.1 msg.has_multisig msg.multisig
      msg.script_type).1 = some script_pubkey ∧
    env.slip21Key ["SLIP-0019", "Ownership identification key"] = some key ∧
    (wit = env.serialize_p2wpkh_witness r.signature.bytes r.signature.size
        (env.get_script_pubkey coin nf.1 msg.has_multisig msg.multisig
          msg.script_type).2.public_key 33 env.SIGHASH_ALL ∨
      wit = env.serialize_p2tr_witness r.signature.bytes r.signature.size 0) ∧
    r.ownership_proof.bytes.take 38 =
      [0x53, 0x4C, 0x00, 0x19, if msg.user_confirmation then 1 else 0, 0x01] ++
        readBytes (env.hmac_sha256 (readBytes key 32) script_pubkey) 32 ∧
    r.ownership_proof.bytes.drop 38 = 0x00 :: wit ∧
    r.ownership_proof.size = 39 + wit.length

/-- The prompts among the events `l` with the answers the user gives, when
the first of them is the `k`-th prompt. -/
def prompted (env : Env) : Nat → List Event → List (Prompt × Bool)
  | _, [] => []
  | k, .prompt p :: l => (p, env.answer k) :: prompted env (k + 1) l
  | k, _ :: l => prompted env k l

/-- The number of prompts among the events `l`. -/
def promptCount : List Event → Nat
  | [] => 0
  | .prompt _ :: l => promptCount l + 1
  | _ :: l => promptCount l

/-- The events of the confirmation step of `fsm_msgGetOwnershipProof` (lines
527-543) when the user accepts what is shown. -/
def confirmEvents (msg : GetOwnershipProof) : List Event :=
  if msg.user_confirmation then
    [.screen .layoutConfirmOwnershipProof,
      .prompt (.protectButton .ButtonRequest_ProtectCall false)] ++
      (if msg.has_commitment_data then
        [.prompt (.fsm_layoutCommitmentData
          (readBytes msg.commitment_data.bytes msg.commitment_data.size))]
      else [])
  else []

/-- A GetOwnershipProof request that sets `user_confirmation` and carries
commitment data. -/
def exProofConfirm : GetOwnershipProof :=
  { exProof with
    user_confirmation := true
    has_commitment_data := true
    commitment_data := ⟨2, [7, 9]⟩ }

/-- The environment `exEnv` with a user who accepts the first prompt and
declines the second. -/
def exEnvDeclineSecond : Env := { exEnv with answer := fun k => k == 0 }

/-- The two-character field of `k` in the words of the description: a space
followed by the digit of `k` when `k < 10`, the two decimal digits of `k`
otherwise. -/
def twoCharField (k : Nat) : List Nat :=
  if k < 10 then [Char.toNat ' ', Char.toNat '0' + k]
  else [Char.toNat '0' + k / 10, Char.toNat '0' + k % 10]

/-- The description of a multisig address in the words of the description:
`"Multisig "`, the field of `m`, `" of "`, the field of `n` and `":"`. -/
def multisigDesc (m n : Nat) : List Nat :=
  lit "Multisig " ++ twoCharField m ++ lit " of " ++ twoCharField n ++ lit ":"

/-- A GetAddress request with display for a 2-of-3 multisig descriptor. -/
def exMultisigAddress : GetAddress :=
  { address_n := [0x80000030, 0x80000000, 0x80000000, 0, 0],
    has_coin_name := false, coin_name := "", has_show_display := true,
    show_display := true, has_multisig := true,
    multisig := ⟨2, [[2, 1], [2, 2], [2, 3]]⟩,
    script_type := .SPENDP2SHWITNESS, has_ignore_xpub_magic := false,
    ignore_xpub_magic := false }

/-- The value `fsm_checkCoinPath` returns when the next prompt is the
`k`-th. -/
def checkCoinPathOk (env : Env) (coin : CoinInfo) (st : InputScriptType)
    (n : List Nat) (m sw : Bool) (k : Nat) : Bool :=
  if env.coin_path_check coin st n m true then true
  else if env.config_getSafetyCheckLevel = .Strict ∧
      ¬ env.coin_path_check coin st n m false then false
  else if sw then env.answer k
  else true

/-- The events `fsm_checkCoinPath` appends when the next prompt is the
`k`-th. -/
def checkCoinPathEvents (env : Env) (coin : CoinInfo) (st : InputScriptType)
    (n : List Nat) (m sw : Bool) (k : Nat) : List Event :=
  if env.coin_path_check coin st n m true then []
  else if env.config_getSafetyCheckLevel = .Strict ∧
      ¬ env.coin_path_check coin st n m false then
    [.failure .Failure_DataError (some "Forbidden key path")]
  else if sw then
    .prompt .fsm_layoutPathWarning ::
      (if env.answer k then [] else [.failure .Failure_ActionCancelled none])
  else []

/-- The failure `fsm_checkCoinPath` sends when it returns false. -/
def checkCoinPathFailure (env : Env) (coin : CoinInfo) (st : InputScriptType)
    (n : List Nat) (m : Bool) : Event :=
  if env.config_getSafetyCheckLevel = .Strict ∧
      ¬ env.coin_path_check coin st n m false then
    .failure .Failure_DataError (some "Forbidden key path")
  else .failure .Failure_ActionCancelled none

/-- The failure `fsm_checkScriptType` sends when it returns false. -/
def checkScriptTypeFailure (env : Env) (coin : CoinInfo)
    (st : InputScriptType) : Event :=
  if !env.is_internal_input_script_type st then
    .failure .Failure_DataError (some "Invalid script type")
  else if env.is_segwit_input_script_type st ∧ ¬ coin.has_segwit then
    .failure .Failure_DataError (some "Segwit not enabled on this coin")
  else .failure .Failure_DataError (some "Taproot not enabled on this coin")

/-- The number of prompts `fsm_checkCoinPath` shows. -/
def checkCoinPathPrompts (env : Env) (coin : CoinInfo) (st : InputScriptType)
    (n : List Nat) (m sw : Bool) : Nat :=
  if env.coin_path_check coin st n m true then 0
  else if env.config_getSafetyCheckLevel = .Strict ∧
      ¬ env.coin_path_check coin st n m false then 0
  else if sw then 1
  else 0

/-- The value `fsm_checkScriptType` returns. -/
def checkScriptTypeOk (env : Env) (coin : CoinInfo) (st : InputScriptType) :
    Bool :=
  if !env.is_internal_input_script_type st then false
  else if env.is_segwit_input_script_type st ∧ ¬ coin.has_segwit then false
  else if st = .SPENDTAPROOT ∧ ¬ coin.has_taproot then false
  else true

/-- The events `fsm_checkScriptType` appends. -/
def checkScriptTypeEvents (env : Env) (coin : CoinInfo)
    (st : InputScriptType) : List Event :=
  if !env.is_internal_input_script_type st then
    [.failure .Failure_DataError (some "Invalid script type")]
  else if env.is_segwit_input_script_type st ∧ ¬ coin.has_segwit then
    [.failure .Failure_DataError (some "Segwit not enabled on this coin")]
  else if st = .SPENDTAPROOT ∧ ¬ coin.has_taproot then
    [.failure .Failure_DataError (some "Taproot not enabled on this coin")]
  else []

/-- The run of `fsm_msgSignMessage` reaches the address computation (line
320) with the coin `coin` and the derived node `nf`: the device is initialized
and unlocked, the coin is known, the path passes `fsm_checkCoinPath`, the node
is derived and its public key filled in. `k` is the number of prompts answered
before the request. -/
def SignMessageReaches (env : Env) (msg : SignMessage) (k : Nat)
    (coin : CoinInfo) (nf : HDNode × Nat) : Prop :=
  env.config_isInitialized = true ∧ env.protectPin = true ∧
    env.coinByName msg.has_coin_name msg.coin_name = some coin ∧
    checkCoinPathOk env coin msg.script_type msg.address_n false true k
      = true ∧
    env.deriveNode coin.curve_name msg.address_n = some nf ∧
    (env.hdnode_fill_public_key nf.1).1 = 0

/-- The run of `fsm_msgGetOwnershipProof` reaches the writing of the proof
prefix (line 547) with the coin `coin`, the derived node `nf`, the scriptPubKey
`script_pubkey` and the SLIP-21 key `key`: the device is initialized and
unlocked, the request is singlesig, the coin is known, the path and the script
type pass their checks, the node, the scriptPubKey and the key are derived, the
ownership identifiers of the request are not rejected, and the confirmation
step is passed (no confirmation is asked for, or every prompt is accepted).
`k` is the number of prompts answered before the request. -/
def OwnershipProofReaches (env : Env) (msg : GetOwnershipProof) (k : Nat)
    (coin : CoinInfo) (nf : HDNode × Nat) (script_pubkey key : List Nat) :
    Prop :=
  env.config_isInitialized = true ∧ env.protectPin = true ∧
    msg.has_multisig = false ∧
    env.coinByName msg.has_coin_name msg.coin_name = some coin ∧
    checkCoinPathOk env coin msg.script_type msg.address_n msg.has_multisig
      false k = true ∧
    checkScriptTypeOk env coin msg.script_type = true ∧
    env.deriveNode coin.curve_name msg.address_n = some nf ∧
    (env.get_script_pubkey coin nf.1 msg.has_multisig msg.multisig
      msg.script_type).1 = some script_pubkey ∧
    env.slip21Key ["SLIP-0019", "Ownership identification key"] = some key ∧
    ownershipIdsRejected
      (readBytes (env.hmac_sha256 (readBytes key 32) script_pubkey) 32)
      msg.ownership_ids = false ∧
    (msg.user_confirmation = true → env.answer k = true ∧
      (msg.has_commitment_data = true → env.answer (k + 1) = true))

/-- The request `exProofConfirm` for a taproot output. -/
def exProofConfirmTaproot : GetOwnershipProof :=
  { exProofConfirm with script_type := .SPENDTAPROOT }

/-! ## Rules to walk through a handler, branch by branch -/

theorem ite_rule {β : Type} (P : β → Prop) (c : Prop) [Decidable c]
    (a b : β) (ha : c → P a) (hb : ¬ c → P b) : P (if c then a else b) := by
  split
  · exact ha ‹_›
  · exact hb ‹_›

theorem orReturn_rule {α β : Type} (P : β → Prop) (o : Option α) (abort : β)
    (k : α → β) (hn : o = none → P abort) (hs : ∀ a, o = some a → P (k a)) :
    P (orReturn o abort k) := by
  cases o with
  | none => exact hn rfl
  | some a => exact hs a rfl

theorem ite_fst {α β : Type} (c : Prop) [Decidable c] (a b : α × β) :
    (if c then a else b).1 = if c then a.1 else b.1 := by
  split <;> rfl

theorem ite_snd {α β : Type} (c : Prop) [Decidable c] (a b : α × β) :
    (if c then a else b).2 = if c then a.2 else b.2 := by
  split <;> rfl

theorem ite_log (c : Prop) [Decidable c] (a b : World) :
    (if c then a else b).log = if c then a.log else b.log := by
  split <;> rfl

theorem ite_prompts (c : Prop) [Decidable c] (a b : World) :
    (if c then a else b).prompts = if c then a.prompts else b.prompts := by
  split <;> rfl

theorem ite_append_append {α : Type} (c : Prop) [Decidable c]
    (l a b : List α) :
    (if c then l ++ a else l ++ b) = l ++ if c then a else b := by
  split <;> rfl

theorem ite_append_self {α : Type} (c : Prop) [Decidable c] (l a : List α) :
    (if c then l ++ a else l) = l ++ if c then a else [] := by
  split <;> simp

theorem ite_self_append {α : Type} (c : Prop) [Decidable c] (l a : List α) :
    (if c then l else l ++ a) = l ++ if c then [] else a := by
  split <;> simp

theorem mem_ite_list {α : Type} (c : Prop) [Decidable c] (x : α)
    (a b : List α) :
    x ∈ (if c then a else b) ↔ if c then x ∈ a else x ∈ b := by
  split <;> rfl

@[simp] theorem orReturn_some {α β : Type} (a : α) (abort : β) (k : α → β) :
    orReturn (some a) abort k = k a := rfl

@[simp] theorem orReturn_none {α β : Type} (abort : β) (k : α → β) :
    orReturn none abort k = abort := rfl

/-! ## Lemmas on logs -/

@[simp] theorem messages_append (l₁ l₂ : List Event) :
    messages (l₁ ++ l₂) = messages l₁ ++ messages l₂ := by
  simp [messages]

@[simp] theorem messages_nil : messages [] = [] := rfl

@[simp] theorem messages_ite (c : Prop) [Decidable c] (a b : List Event) :
    messages (if c then a else b) = if c then messages a else messages b := by
  split <;> rfl

@[simp] theorem messages_cons_failure (t : FailureType) (x : Option String)
    (l : List Event) :
    messages (.failure t x :: l) = .failure t x :: messages l := rfl

@[simp] theorem messages_cons_success (x : String) (l : List Event) :
    messages (.success x :: l) = .success x :: messages l := rfl

@[simp] theorem messages_cons_msg_write (r : Response) (l : List Event) :
    messages (.msg_write r :: l) = .msg_write r :: messages l := rfl

@[simp] theorem messages_cons_screen (s : Screen) (l : List Event) :
    messages (.screen s :: l) = messages l := rfl

@[simp] theorem messages_cons_prompt (p : Prompt) (l : List Event) :
    messages (.prompt p :: l) = messages l := rfl

@[simp] theorem messages_cons_call (c : Call) (l : List Event) :
    messages (.call c :: l) = messages l := rfl

@[simp] theorem log_fsm_sendFailure (t : FailureType) (x : Option String)
    (w : World) :
    (fsm_sendFailure t x w).log = w.log ++ [.failure t x] := rfl

@[simp] theorem log_fsm_sendSuccess (x : String) (w : World) :
    (fsm_sendSuccess x w).log = w.log ++ [.success x] := rfl

@[simp] theorem log_msg_write (r : Response) (w : World) :
    (msg_write r w).log = w.log ++ [.msg_write r] := rfl

@[simp] theorem log_draw (s : Screen) (w : World) :
    (draw s w).log = w.log ++ [.screen s] := rfl

@[simp] theorem log_layoutHome (w : World) :
    (layoutHome w).log = w.log ++ [.screen .layoutHome] := rfl

@[simp] theorem log_emit (e : Event) (w : World) :
    (w.emit e).log = w.log ++ [e] := rfl

@[simp] theorem log_ask (env : Env) (p : Prompt) (w : World) :
    (ask env p w).2.log = w.log ++ [.prompt p] := rfl

@[simp] theorem prompts_fsm_sendFailure (t : FailureType) (x : Option String)
    (w : World) : (fsm_sendFailure t x w).prompts = w.prompts := rfl

@[simp] theorem prompts_fsm_sendSuccess (x : String) (w : World) :
    (fsm_sendSuccess x w).prompts = w.prompts := rfl

@[simp] theorem prompts_msg_write (r : Response) (w : World) :
    (msg_write r w).prompts = w.prompts := rfl

@[simp] theorem prompts_draw (s : Screen) (w : World) :
    (draw s w).prompts = w.prompts := rfl

@[simp] theorem prompts_layoutHome (w : World) :
    (layoutHome w).prompts = w.prompts := rfl

@[simp] theorem prompts_emit (e : Event) (w : World) :
    (w.emit e).prompts = w.prompts := rfl

@[simp] theorem prompts_ask (env : Env) (p : Prompt) (w : World) :
    (ask env p w).2.prompts = w.prompts + 1 := rfl

@[simp] theorem ask_fst (env : Env) (p : Prompt) (w : World) :
    (ask env p w).1 = env.answer w.prompts := rfl

@[simp] theorem CHECK_INITIALIZED_fst (env : Env) (w : World) :
    (CHECK_INITIALIZED env w).1 = env.config_isInitialized := by
  unfold CHECK_INITIALIZED
  split <;> simp_all

@[simp] theorem CHECK_INITIALIZED_log (env : Env) (w : World) :
    (CHECK_INITIALIZED env w).2.log = w.log ++
      (if env.config_isInitialized then []
        else [.failure .Failure_NotInitialized none, .screen .layoutHome]) := by
  unfold CHECK_INITIALIZED
  split <;> simp_all

@[simp] theorem CHECK_INITIALIZED_prompts (env : Env) (w : World) :
    (CHECK_INITIALIZED env w).2.prompts = w.prompts := by
  unfold CHECK_INITIALIZED
  split <;> simp_all

@[simp] theorem CHECK_PIN_fst (env : Env) (w : World) :
    (CHECK_PIN env w).1 = env.protectPin := by
  unfold CHECK_PIN
  split <;> simp_all

@[simp] theorem CHECK_PIN_log (env : Env) (w : World) :
    (CHECK_PIN env w).2.log = w.log ++
      (if env.protectPin then []
        else [.failure env.pinFailure (env.helperText "protectPin"),
          .screen .layoutHome]) := by
  unfold CHECK_PIN
  split <;> simp_all

@[simp] theorem CHECK_PIN_prompts (env : Env) (w : World) :
    (CHECK_PIN env w).2.prompts = w.prompts := by
  unfold CHECK_PIN
  split <;> simp_all

@[simp] theorem CHECK_PARAM_fst (c : Bool) (m : String) (w : World) :
    (CHECK_PARAM c m w).1 = c := by
  unfold CHECK_PARAM
  split <;> simp_all

@[simp] theorem CHECK_PARAM_log (c : Bool) (m : String) (w : World) :
    (CHECK_PARAM c m w).2.log = w.log ++
      (if c then []
        else [.failure .Failure_DataError (some m), .screen .layoutHome]) := by
  unfold CHECK_PARAM
  split <;> simp_all

@[simp] theorem CHECK_PARAM_prompts (c : Bool) (m : String) (w : World) :
    (CHECK_PARAM c m w).2.prompts = w.prompts := by
  unfold CHECK_PARAM
  split <;> simp_all

@[simp] theorem fsm_getCoin_fst (env : Env) (a : Bool) (b : String)
    (w : World) : (fsm_getCoin env a b w).1 = env.coinByName a b := by
  unfold fsm_getCoin
  split <;> simp_all

@[simp] theorem fsm_getCoin_log (env : Env) (a : Bool) (b : String)
    (w : World) :
    (fsm_getCoin env a b w).2.log = w.log ++
      (if env.coinByName a b = none then
          [.failure .Failure_DataError (env.helperText "fsm_getCoin"),
            .screen .layoutHome]
        else []) := by
  unfold fsm_getCoin
  split <;> simp_all

@[simp] theorem fsm_getCoin_prompts (env : Env) (a : Bool) (b : String)
    (w : World) : (fsm_getCoin env a b w).2.prompts = w.prompts := by
  unfold fsm_getCoin
  split <;> simp_all

@[simp] theorem fsm_getDerivedNode_fst (env : Env) (c : String)
    (n : List Nat) (w : World) :
    (fsm_getDerivedNode env c n w).1 = env.deriveNode c n := by
  unfold fsm_getDerivedNode
  split <;> simp_all

@[simp] theorem fsm_getDerivedNode_log (env : Env) (c : String)
    (n : List Nat) (w : World) :
    (fsm_getDerivedNode env c n w).2.log = w.log ++
      (if env.deriveNode c n = none then
          [.failure .Failure_ProcessError
              (env.helperText "fsm_getDerivedNode"),
            .screen .layoutHome]
        else []) := by
  unfold fsm_getDerivedNode
  split <;> simp_all

@[simp] theorem fsm_getDerivedNode_prompts (env : Env) (c : String)
    (n : List Nat) (w : World) :
    (fsm_getDerivedNode env c n w).2.prompts = w.prompts := by
  unfold fsm_getDerivedNode
  split <;> simp_all

@[simp] theorem fsm_layoutPathWarning_fst (env : Env) (w : World) :
    (fsm_layoutPathWarning env w).1 = env.answer w.prompts := by
  cases h : env.answer w.prompts <;> simp [fsm_layoutPathWarning, h]

@[simp] theorem fsm_layoutPathWarning_log (env : Env) (w : World) :
    (fsm_layoutPathWarning env w).2.log = w.log ++
      (.prompt .fsm_layoutPathWarning ::
        (if env.answer w.prompts then []
          else [.failure .Failure_ActionCancelled none])) := by
  cases h : env.answer w.prompts <;> simp [fsm_layoutPathWarning, h]

@[simp] theorem fsm_layoutPathWarning_prompts (env : Env) (w : World) :
    (fsm_layoutPathWarning env w).2.prompts = w.prompts + 1 := by
  cases h : env.answer w.prompts <;> simp [fsm_layoutPathWarning, h]

@[simp] theorem fsm_checkCoinPath_log (env : Env) (coin : CoinInfo)
    (st : InputScriptType) (n : List Nat) (m sw : Bool) (w : World) :
    (fsm_checkCoinPath env coin st n m sw w).2.log =
      w.log ++ checkCoinPathEvents env coin st n m sw w.prompts := by
  unfold fsm_checkCoinPath checkCoinPathEvents
  split_ifs <;> simp_all

@[simp] theorem fsm_checkCoinPath_fst (env : Env) (coin : CoinInfo)
    (st : InputScriptType) (n : List Nat) (m sw : Bool) (w : World) :
    (fsm_checkCoinPath env coin st n m sw w).1 =
      checkCoinPathOk env coin st n m sw w.prompts := by
  unfold fsm_checkCoinPath checkCoinPathOk
  split_ifs <;> simp_all

@[simp] theorem fsm_checkCoinPath_prompts (env : Env) (coin : CoinInfo)
    (st : InputScriptType) (n : List Nat) (m sw : Bool) (w : World) :
    (fsm_checkCoinPath env coin st n m sw w).2.prompts =
      w.prompts + checkCoinPathPrompts env coin st n m sw := by
  unfold fsm_checkCoinPath checkCoinPathPrompts
  split_ifs <;> simp_all

@[simp] theorem messages_checkCoinPathEvents (env : Env) (coin : CoinInfo)
    (st : InputScriptType) (n : List Nat) (m sw : Bool) (k : Nat) :
    messages (checkCoinPathEvents env coin st n m sw k) =
      if checkCoinPathOk env coin st n m sw k then []
      else [checkCoinPathFailure env coin st n m] := by
  unfold checkCoinPathEvents checkCoinPathOk checkCoinPathFailure
  split_ifs <;> simp_all

@[simp] theorem msg_write_not_mem_checkCoinPathEvents (env : Env)
    (coin : CoinInfo) (st : InputScriptType) (n : List Nat) (m sw : Bool)
    (k : Nat) (r : Response) :
    Event.msg_write r ∉ checkCoinPathEvents env coin st n m sw k := by
  unfold checkCoinPathEvents
  split_ifs <;> simp

@[simp] theorem msg_write_not_mem_checkScriptTypeEvents (env : Env)
    (coin : CoinInfo) (st : InputScriptType) (r : Response) :
    Event.msg_write r ∉ checkScriptTypeEvents env coin st := by
  unfold checkScriptTypeEvents
  split_ifs <;> simp

@[simp] theorem fsm_checkScriptType_log (env : Env) (coin : CoinInfo)
    (st : InputScriptType) (w : World) :
    (fsm_checkScriptType env coin st w).2.log =
      w.log ++ checkScriptTypeEvents env coin st := by
  unfold fsm_checkScriptType checkScriptTypeEvents
  split_ifs <;> simp_all

@[simp] theorem fsm_checkScriptType_fst (env : Env) (coin : CoinInfo)
    (st : InputScriptType) (w : World) :
    (fsm_checkScriptType env coin st w).1 = checkScriptTypeOk env coin st := by
  unfold fsm_checkScriptType checkScriptTypeOk
  split_ifs <;> simp_all

@[simp] theorem fsm_checkScriptType_prompts (env : Env) (coin : CoinInfo)
    (st : InputScriptType) (w : World) :
    (fsm_checkScriptType env coin st w).2.prompts = w.prompts := by
  unfold fsm_checkScriptType
  split_ifs <;> simp_all

@[simp] theorem messages_checkScriptTypeEvents (env : Env) (coin : CoinInfo)
    (st : InputScriptType) :
    messages (checkScriptTypeEvents env coin st) =
      if checkScriptTypeOk env coin st then []
      else [checkScriptTypeFailure env coin st] := by
  unfold checkScriptTypeEvents checkScriptTypeOk checkScriptTypeFailure
  split_ifs <;> simp_all

@[simp] theorem fsm_layoutAddress_fst (env : Env) (a : String)
    (d : List Nat) (c : Bool) (k : Nat) (i : Int) (x : Nat) (w : World) :
    (fsm_layoutAddress env a d c k i x w).1 = env.answer w.prompts := by
  cases h : env.answer w.prompts <;> simp [fsm_layoutAddress, h]

@[simp] theorem fsm_layoutAddress_log (env : Env) (a : String)
    (d : List Nat) (c : Bool) (k : Nat) (i : Int) (x : Nat) (w : World) :
    (fsm_layoutAddress env a d c k i x w).2.log = w.log ++
      (.prompt (.fsm_layoutAddress a d c k i x) ::
        (if env.answer w.prompts then []
          else [.failure .Failure_ActionCancelled none,
            .screen .layoutHome])) := by
  cases h : env.answer w.prompts <;> simp [fsm_layoutAddress, h]

@[simp] theorem fsm_layoutAddress_prompts (env : Env) (a : String)
    (d : List Nat) (c : Bool) (k : Nat) (i : Int) (x : Nat) (w : World) :
    (fsm_layoutAddress env a d c k i x w).2.prompts = w.prompts + 1 := by
  cases h : env.answer w.prompts <;> simp [fsm_layoutAddress, h]

@[simp] theorem fsm_getSlip21Key_fst (env : Env) (path : List String)
    (key : List Nat) (w : World) :
    (fsm_getSlip21Key env path key w).1 = (env.slip21Key path).isSome := by
  unfold fsm_getSlip21Key
  split <;> simp_all

@[simp] theorem fsm_getSlip21Key_log (env : Env) (path : List String)
    (key : List Nat) (w : World) :
    (fsm_getSlip21Key env path key w).2.2.log = w.log ++
      (if env.slip21Key path = none then
          [.failure .Failure_ProcessError
              (env.helperText "fsm_getSlip21Key"),
            .screen .layoutHome]
        else []) := by
  unfold fsm_getSlip21Key
  split <;> simp_all

@[simp] theorem fsm_getSlip21Key_prompts (env : Env) (path : List String)
    (key : List Nat) (w : World) :
    (fsm_getSlip21Key env path key w).2.2.prompts = w.prompts := by
  unfold fsm_getSlip21Key
  split <;> simp_all

@[simp] theorem fsm_getOwnershipId_fst (env : Env) (sp oid : List Nat)
    (w : World) :
    (fsm_getOwnershipId env sp oid w).1 =
      (env.slip21Key ["SLIP-0019", "Ownership identification key"]).isSome
      := by
  cases h : env.slip21Key ["SLIP-0019", "Ownership identification key"] <;>
    simp [fsm_getOwnershipId, fsm_getSlip21Key, h]

@[simp] theorem fsm_getOwnershipId_log (env : Env) (sp oid : List Nat)
    (w : World) :
    (fsm_getOwnershipId env sp oid w).2.2.log = w.log ++
      (if env.slip21Key ["SLIP-0019", "Ownership identification key"]
          = none then
          [.failure .Failure_ProcessError
              (env.helperText "fsm_getSlip21Key"),
            .screen .layoutHome]
        else []) := by
  cases h : env.slip21Key ["SLIP-0019", "Ownership identification key"] <;>
    simp [fsm_getOwnershipId, fsm_getSlip21Key, h]

@[simp] theorem fsm_getOwnershipId_prompts (env : Env) (sp oid : List Nat)
    (w : World) :
    (fsm_getOwnershipId env sp oid w).2.2.prompts = w.prompts := by
  cases h : env.slip21Key ["SLIP-0019", "Ownership identification key"] <;>
    simp [fsm_getOwnershipId, fsm_getSlip21Key, h]

/-- The buffer `fsm_getOwnershipId` leaves in `ownership_id`. -/
theorem fsm_getOwnershipId_id (env : Env) (sp oid : List Nat) (w : World) :
    (fsm_getOwnershipId env sp oid w).2.1 =
      match env.slip21Key ["SLIP-0019", "Ownership identification key"] with
      | some k =>
        writeAt oid 0
          (readBytes
            (env.hmac_sha256
              (readBytes (writeAt (List.replicate 32 0) 0 (readBytes k 32)) 32)
              sp) 32)
      | none => oid := by
  cases h : env.slip21Key ["SLIP-0019", "Ownership identification key"] <;>
    simp [fsm_getOwnershipId, fsm_getSlip21Key, h]

@[simp] theorem xpubPages_fst (env : Env) (x : String) (w : World) :
    (xpubPages env x [0, 1] w).1 =
      (env.answer w.prompts && env.answer (w.prompts + 1)) := by
  simp only [xpubPages, protectButton, ask_fst, prompts_draw, prompts_ask]
  cases env.answer w.prompts <;> cases env.answer (w.prompts + 1) <;> simp

@[simp] theorem xpubPages_log (env : Env) (x : String) (w : World) :
    (xpubPages env x [0, 1] w).2.log = w.log ++
      (.screen (.layoutXPUB x 0) ::
        .prompt (.protectButton .ButtonRequest_PublicKey true) ::
        (if env.answer w.prompts then
          [.screen (.layoutXPUB x 1),
            .prompt (.protectButton .ButtonRequest_PublicKey true)]
          else [])) := by
  simp only [xpubPages, protectButton, ask_fst, prompts_draw, prompts_ask]
  cases env.answer w.prompts <;> cases env.answer (w.prompts + 1) <;> simp

@[simp] theorem xpubPages_prompts (env : Env) (x : String) (w : World) :
    (xpubPages env x [0, 1] w).2.prompts =
      w.prompts + (if env.answer w.prompts then 2 else 1) := by
  simp only [xpubPages, protectButton, ask_fst, prompts_draw, prompts_ask]
  cases env.answer w.prompts <;> cases env.answer (w.prompts + 1) <;> simp

/-! ## SignTx -/

/-- C7: a SignTx request with `inputs_count = 0` on an initialized device,
whatever the PIN state, the coin and the other fields, makes `fsm_msgSignTx`
emit `Failure_DataError "Transaction must have at least one input"` and nothing
else (the only other event is the idle screen), and `signing_init` is not
called. -/
theorem fsm_msgSignTx_no_inputs (env : Env) (msg : SignTx) (w : World)
    (hinit : env.config_isInitialized = true) (h0 : msg.inputs_count = 0) :
    (fsm_msgSignTx env msg w).log = w.log ++
        [.failure .Failure_DataError
            (some "Transaction must have at least one input"),
          .screen .layoutHome] ∧
      messages (fsm_msgSignTx env msg w).log = messages w.log ++
        [.failure .Failure_DataError
            (some "Transaction must have at least one input")] ∧
      (fsm_msgSignTx env msg w).prompts = w.prompts ∧
      ∀ m c n, Event.call (.signing_init m c n) ∉
        (fsm_msgSignTx env msg w).log.drop w.log.length := by
  have hlog : (fsm_msgSignTx env msg w).log = w.log ++
      [.failure .Failure_DataError
          (some "Transaction must have at least one input"),
        .screen .layoutHome] := by
    simp [fsm_msgSignTx, hinit, h0]
  refine ⟨hlog, ?_, ?_, ?_⟩
  · rw [hlog]
    simp [messages, Event.isTerminal]
  · simp [fsm_msgSignTx, hinit, h0]
  · intro m c n
    rw [hlog]
    simp

/-- Witness of C7: a locked device (PIN gate closed) and a request with no
inputs. -/
theorem fsm_msgSignTx_no_inputs_witness :
    ({ exEnv with protectPin := false } : Env).config_isInitialized = true ∧
      (⟨1, 0, false, "", false, false, 0⟩ : SignTx).inputs_count = 0 ∧
      (fsm_msgSignTx { exEnv with protectPin := false }
        ⟨1, 0, false, "", false, false, 0⟩ World.init).log = World.init.log ++
        [.failure .Failure_DataError
            (some "Transaction must have at least one input"),
          .screen .layoutHome] :=
  ⟨rfl, rfl,
    (fsm_msgSignTx_no_inputs { exEnv with protectPin := false }
      ⟨1, 0, false, "", false, false, 0⟩ World.init rfl rfl).1⟩

/-- The overflow guard of `fsm_msgSignTx` on 32-bit counts: the wrapped sum is
below `inputs_count` exactly when the true sum does not fit in 32 bits. -/
theorem overflow_guard_iff (i o : Nat) (hi : i < 2 ^ 32) (ho : o < 2 ^ 32) :
    ¬ ((i + o) % 2 ^ 32 ≥ i) ↔ 2 ^ 32 ≤ i + o := by
  constructor
  · intro h
    by_contra hlt
    push_neg at hlt
    rw [Nat.mod_eq_of_lt hlt] at h
    omega
  · intro h
    have : (i + o) % 2 ^ 32 = i + o - 2 ^ 32 := by
      rw [Nat.mod_eq_sub_mod h, Nat.mod_eq_of_lt (by omega)]
    omega

/-- C8: the SignTx overflow guard is exact over 32-bit counts. For unsigned
32-bit `inputs_count > 0` and `outputs_count > 0` the check
`(inputs_count + outputs_count) mod 2^32 >= inputs_count` fails exactly when
the true sum is at least `2^32`; on an initialized device the handler then
emits `Failure_DataError "Value overflow"` and nothing else, and when the sum
fits in 32 bits the guard passes and the handler emits no
`Failure_DataError "Value overflow"` (the texts of the failures that the PIN
flow and the coin lookup send are assumed to differ from it). -/
theorem fsm_msgSignTx_overflow_guard (env : Env) (msg : SignTx) (w : World)
    (hinit : env.config_isInitialized = true)
    (hi : 0 < msg.inputs_count) (hi32 : msg.inputs_count < 2 ^ 32)
    (ho : 0 < msg.outputs_count) (ho32 : msg.outputs_count < 2 ^ 32)
    (hpin : env.helperText "protectPin" ≠ some "Value overflow")
    (hcoin : env.helperText "fsm_getCoin" ≠ some "Value overflow") :
    (¬ ((msg.inputs_count + msg.outputs_count) % 2 ^ 32 ≥ msg.inputs_count) ↔
        2 ^ 32 ≤ msg.inputs_count + msg.outputs_count) ∧
      ((CHECK_PARAM
          (decide ((msg.inputs_count + msg.outputs_count) % 2 ^ 32 ≥
            msg.inputs_count)) "Value overflow" w).1 = true ↔
        msg.inputs_count + msg.outputs_count < 2 ^ 32) ∧
      (2 ^ 32 ≤ msg.inputs_count + msg.outputs_count →
        (fsm_msgSignTx env msg w).log = w.log ++
          [.failure .Failure_DataError (some "Value overflow"),
            .screen .layoutHome]) ∧
      (Event.failure .Failure_DataError (some "Value overflow") ∈
          (fsm_msgSignTx env msg w).log.drop w.log.length ↔
        2 ^ 32 ≤ msg.inputs_count + msg.outputs_count) := by
  have hg := overflow_guard_iff msg.inputs_count msg.outputs_count hi32 ho32
  have hover : 2 ^ 32 ≤ msg.inputs_count + msg.outputs_count →
      (fsm_msgSignTx env msg w).log = w.log ++
        [.failure .Failure_DataError (some "Value overflow"),
          .screen .layoutHome] := by
    intro h
    have hlt := hg.mpr h
    simp only [fsm_msgSignTx, CHECK_INITIALIZED_fst, CHECK_PARAM_fst, hinit,
      decide_eq_true hi, decide_eq_true ho, decide_eq_false hlt]
    simp [hinit]
  refine ⟨hg, ?_, hover, ?_⟩
  · rw [CHECK_PARAM_fst, decide_eq_true_iff]
    constructor
    · intro h
      by_contra hc
      exact hg.mpr (by omega) h
    · intro h
      by_contra hc
      have := hg.mp hc
      omega
  · constructor
    · intro hmem
      by_contra hc
      have hge : (msg.inputs_count + msg.outputs_count) % 2 ^ 32 ≥
          msg.inputs_count := by
        by_contra hc2
        exact hc (hg.mp hc2)
      have hpin2 := Ne.symm hpin
      have hcoin2 := Ne.symm hcoin
      revert hmem
      show (fun out : World =>
        Event.failure .Failure_DataError (some "Value overflow") ∉
          out.log.drop w.log.length) (fsm_msgSignTx env msg w)
      generalize hP : (fun out : World =>
        Event.failure .Failure_DataError (some "Value overflow") ∉
          out.log.drop w.log.length) = P
      simp only [fsm_msgSignTx, CHECK_INITIALIZED_fst, CHECK_PARAM_fst,
        CHECK_PIN_fst, fsm_getCoin_fst, fsm_getDerivedNode_fst]
      repeat' first
        | (refine ite_rule P _ _ _ ?_ ?_ <;> intros)
        | (refine orReturn_rule P _ _ _ ?_ ?_ <;> intros)
      all_goals
        subst hP
        simp_all [List.append_assoc]
    · intro h
      rw [hover h]
      simp

/-- Witness of C8: `inputs_count = 2^32 - 1` and `outputs_count = 1`
overflow, and the handler answers "Value overflow". -/
theorem fsm_msgSignTx_overflow_guard_witness :
    exEnv.config_isInitialized = true ∧
      0 < exOverflowTx.inputs_count ∧ exOverflowTx.inputs_count < 2 ^ 32 ∧
      0 < exOverflowTx.outputs_count ∧ exOverflowTx.outputs_count < 2 ^ 32 ∧
      2 ^ 32 ≤ exOverflowTx.inputs_count + exOverflowTx.outputs_count ∧
      (fsm_msgSignTx exEnv exOverflowTx World.init).log = World.init.log ++
        [.failure .Failure_DataError (some "Value overflow"),
          .screen .layoutHome] :=
  ⟨rfl, by decide, by decide, by decide, by decide, by decide,
    (fsm_msgSignTx_overflow_guard exEnv exOverflowTx World.init rfl
      (by decide) (by decide) (by decide) (by decide)
      (by simp [exEnv]) (by simp [exEnv])).2.2.1 (by decide)⟩

/-! ## The key-path validator -/

/-- C10: the decision `fsm_checkCoinPath` computes, for every coin, script
type, path, `has_multisig` and `show_warning`. If the strict-mode path check
accepts, it returns true and emits and shows nothing; otherwise, if the safety
level is Strict and the non-strict check rejects too, it returns false and
emits exactly one `Failure_DataError "Forbidden key path"` without showing the
warning; otherwise, if `show_warning` is set, it shows the path warning and
returns the user's answer to it; otherwise it returns true, emitting nothing.
In particular, under a non-Strict level with `show_warning` false it returns
true for every path. -/
theorem fsm_checkCoinPath_decision (env : Env) (coin : CoinInfo)
    (script_type : InputScriptType) (address_n : List Nat)
    (has_multisig show_warning : Bool) (w : World) :
    (env.coin_path_check coin script_type address_n has_multisig true = true →
        fsm_checkCoinPath env coin script_type address_n has_multisig
          show_warning w = (true, w)) ∧
      (env.coin_path_check coin script_type address_n has_multisig true
          = false →
        env.config_getSafetyCheckLevel = .Strict →
        env.coin_path_check coin script_type address_n has_multisig false
          = false →
        fsm_checkCoinPath env coin script_type address_n has_multisig
          show_warning w =
          (false,
            { log := w.log ++
                [.failure .Failure_DataError (some "Forbidden key path")],
              prompts := w.prompts })) ∧
      (env.coin_path_check coin script_type address_n has_multisig true
          = false →
        (env.config_getSafetyCheckLevel ≠ .Strict ∨
          env.coin_path_check coin script_type address_n has_multisig false
            = true) →
        show_warning = true →
        fsm_checkCoinPath env coin script_type address_n has_multisig
            show_warning w = fsm_layoutPathWarning env w ∧
          (fsm_checkCoinPath env coin script_type address_n has_multisig
            show_warning w).1 = env.answer w.prompts ∧
          (fsm_checkCoinPath env coin script_type address_n has_multisig
            show_warning w).2.log.take (w.log.length + 1) =
              w.log ++ [.prompt .fsm_layoutPathWarning]) ∧
      (env.coin_path_check coin script_type address_n has_multisig true
          = false →
        (env.config_getSafetyCheckLevel ≠ .Strict ∨
          env.coin_path_check coin script_type address_n has_multisig false
            = true) →
        show_warning = false →
        fsm_checkCoinPath env coin script_type address_n has_multisig
          show_warning w = (true, w)) ∧
      (env.config_getSafetyCheckLevel ≠ .Strict → show_warning = false →
        fsm_checkCoinPath env coin script_type address_n has_multisig
          show_warning w = (true, w)) := by
  refine ⟨?_, ?_, ?_, ?_, ?_⟩
  · intro h
    simp [fsm_checkCoinPath, h]
  · intro h hs hl
    simp [fsm_checkCoinPath, h, hs, hl, fsm_sendFailure, World.emit]
  · intro h hor hw
    have hfun : fsm_checkCoinPath env coin script_type address_n has_multisig
        show_warning w = fsm_layoutPathWarning env w := by
      rcases hor with hns | hl
      · simp [fsm_checkCoinPath, h, hns, hw]
      · simp [fsm_checkCoinPath, h, hl, hw]
    refine ⟨hfun, ?_, ?_⟩
    · rw [hfun]
      unfold fsm_layoutPathWarning ask
      cases env.answer w.prompts <;> simp
    · rw [hfun]
      unfold fsm_layoutPathWarning ask fsm_sendFailure World.emit
      cases env.answer w.prompts <;> simp [List.take_append_eq_append_take]
  · intro h hor hw
    rcases hor with hns | hl
    · simp [fsm_checkCoinPath, h, hns, hw]
    · simp [fsm_checkCoinPath, h, hl, hw]
  · intro hns hw
    unfold fsm_checkCoinPath
    split
    · rfl
    · simp [hns, hw]

/-! ## VerifyMessage -/

/-- C6: the outcome of `fsm_msgVerifyMessage` for a request whose coin
resolves, as a function of the signature size, the verifier's result and the
user's answers. A signature of size other than 65 gives
`Failure_ProcessError "Invalid signature"` at once: the only events are the
progress screen, the failure and the idle screen, so `cryptoMessageVerify` is
not called and no prompt is shown. Otherwise result 1 gives
`Failure_DataError "Invalid address"`, a result other than 0 and 1 gives
`Failure_ProcessError "Invalid signature"`, and result 0 gives
`Success "Message verified"` when all three prompts are accepted and
`Failure_ActionCancelled` when one is declined; in each case this is the only
message emitted. -/
theorem fsm_msgVerifyMessage_outcome (env : Env) (msg : VerifyMessage)
    (w : World) (coin : CoinInfo)
    (hcoin : env.coinByName msg.has_coin_name msg.coin_name = some coin) :
    (msg.signature.size ≠ 65 →
        fsm_msgVerifyMessage env msg w =
          { log := w.log ++
              [.screen (.layoutProgressSwipe "Verifying"),
                .failure .Failure_ProcessError (some "Invalid signature"),
                .screen .layoutHome],
            prompts := w.prompts }) ∧
      (msg.signature.size = 65 →
        env.cryptoMessageVerify coin
          (readBytes msg.message.bytes msg.message.size) msg.address
          msg.signature.bytes = 1 →
        messages (fsm_msgVerifyMessage env msg w).log = messages w.log ++
          [.failure .Failure_DataError (some "Invalid address")]) ∧
      (msg.signature.size = 65 →
        env.cryptoMessageVerify coin
          (readBytes msg.message.bytes msg.message.size) msg.address
          msg.signature.bytes ≠ 0 →
        env.cryptoMessageVerify coin
          (readBytes msg.message.bytes msg.message.size) msg.address
          msg.signature.bytes ≠ 1 →
        messages (fsm_msgVerifyMessage env msg w).log = messages w.log ++
          [.failure .Failure_ProcessError (some "Invalid signature")]) ∧
      (msg.signature.size = 65 →
        env.cryptoMessageVerify coin
          (readBytes msg.message.bytes msg.message.size) msg.address
          msg.signature.bytes = 0 →
        messages (fsm_msgVerifyMessage env msg w).log = messages w.log ++
          [if env.answer w.prompts && env.answer (w.prompts + 1) &&
              env.answer (w.prompts + 2)
            then .success "Message verified"
            else .failure .Failure_ActionCancelled none]) ∧
      (Event.success "Message verified" ∈
          (fsm_msgVerifyMessage env msg w).log.drop w.log.length →
        msg.signature.size = 65 ∧
          env.cryptoMessageVerify coin
            (readBytes msg.message.bytes msg.message.size) msg.address
            msg.signature.bytes = 0 ∧
          env.answer w.prompts = true ∧ env.answer (w.prompts + 1) = true ∧
          env.answer (w.prompts + 2) = true) := by
  have hc : fsm_getCoin env msg.has_coin_name msg.coin_name w
      = (some coin, w) := by
    simp [fsm_getCoin, hcoin]
  refine ⟨?_, ?_, ?_, ?_, ?_⟩
  · intro hsz
    simp [fsm_msgVerifyMessage, hc, hsz, layoutHome, draw, fsm_sendFailure,
      World.emit]
  · intro hsz hres
    simp [fsm_msgVerifyMessage, hc, hsz, hres, layoutHome, draw,
      fsm_sendFailure, World.emit, messages, Event.isTerminal]
  · intro hsz h0 h1
    simp [fsm_msgVerifyMessage, hc, hsz, h0, h1, layoutHome, draw,
      fsm_sendFailure, World.emit, messages, Event.isTerminal]
  · intro hsz hres
    simp only [fsm_msgVerifyMessage, hc, orReturn_some, hsz, hres, layoutHome, draw,
      fsm_sendFailure, fsm_sendSuccess, World.emit, protectButton, ask,
      fsm_layoutVerifyMessage]
    cases env.answer w.prompts <;> cases env.answer (w.prompts + 1) <;>
      cases env.answer (w.prompts + 2) <;>
      simp [messages, Event.isTerminal]
  · intro hmem
    by_cases hsz : msg.signature.size = 65
    · by_cases hres : env.cryptoMessageVerify coin
          (readBytes msg.message.bytes msg.message.size) msg.address
          msg.signature.bytes = 0
      · refine ⟨hsz, hres, ?_⟩
        revert hmem
        simp only [fsm_msgVerifyMessage, hc, orReturn_some, hsz, hres, layoutHome, draw,
          fsm_sendFailure, fsm_sendSuccess, World.emit, protectButton, ask,
          fsm_layoutVerifyMessage]
        cases env.answer w.prompts <;> cases env.answer (w.prompts + 1) <;>
          cases env.answer (w.prompts + 2) <;>
          simp [List.append_assoc]
      · exfalso
        revert hmem
        by_cases h1 : env.cryptoMessageVerify coin
            (readBytes msg.message.bytes msg.message.size) msg.address
            msg.signature.bytes = 1
        · simp [fsm_msgVerifyMessage, hc, hsz, h1, layoutHome, draw,
            fsm_sendFailure, World.emit, List.append_assoc]
        · simp [fsm_msgVerifyMessage, hc, hsz, hres, h1, layoutHome, draw,
            fsm_sendFailure, World.emit, List.append_assoc]
    · exfalso
      revert hmem
      simp [fsm_msgVerifyMessage, hc, hsz, layoutHome, draw, fsm_sendFailure,
        World.emit, List.append_assoc]

/-! ## One terminal message per request -/

theorem fsm_msgGetPublicKey_oneTerminal (env : Env) (msg : GetPublicKey) :
    OneTerminal (fun w => (fsm_msgGetPublicKey env msg w).1) := by
  intro w
  show (fun out : World × PublicKey =>
    ∃ new, out.1.log = w.log ++ new ∧ (messages new).length = 1)
      (fsm_msgGetPublicKey env msg w)
  generalize hP : (fun out : World × PublicKey =>
    ∃ new, out.1.log = w.log ++ new ∧ (messages new).length = 1) = P
  simp only [fsm_msgGetPublicKey, CHECK_INITIALIZED_fst, CHECK_PIN_fst,
    fsm_getCoin_fst, fsm_getDerivedNode_fst]
  repeat' first
    | (refine ite_rule P _ _ _ ?_ ?_ <;> intros)
    | (refine orReturn_rule P _ _ _ ?_ ?_ <;> intros)
  all_goals
    subst hP
    simp_all [List.append_assoc, ite_fst, ite_snd, ite_log, ite_prompts,
      ite_append_append, ite_append_self, ite_self_append]

theorem fsm_msgGetAddress_oneTerminal (env : Env) (msg : GetAddress) :
    OneTerminal (fun w => (fsm_msgGetAddress env msg w).1) := by
  intro w
  show (fun out : World × Address =>
    ∃ new, out.1.log = w.log ++ new ∧ (messages new).length = 1)
      (fsm_msgGetAddress env msg w)
  generalize hP : (fun out : World × Address =>
    ∃ new, out.1.log = w.log ++ new ∧ (messages new).length = 1) = P
  cases hm : msg.has_multisig <;>
  simp only [fsm_msgGetAddress, CHECK_INITIALIZED_fst, CHECK_PIN_fst,
    fsm_getCoin_fst, fsm_getDerivedNode_fst, fsm_checkCoinPath_fst, hm,
    Bool.false_eq_true, if_false, if_true]
  repeat' first
    | (refine ite_rule P _ _ _ ?_ ?_ <;> intros)
    | (refine orReturn_rule P _ _ _ ?_ ?_ <;> intros)
  all_goals
    subst hP
    simp_all [List.append_assoc, ite_fst, ite_snd, ite_log, ite_prompts,
      ite_append_append, ite_append_self, ite_self_append]
  all_goals
    intros
    simp_all

theorem fsm_msgSignMessage_oneTerminal (env : Env) (msg : SignMessage) :
    OneTerminal (fun w => (fsm_msgSignMessage env msg w).1) := by
  intro w
  show (fun out : World × MessageSignature =>
    ∃ new, out.1.log = w.log ++ new ∧ (messages new).length = 1)
      (fsm_msgSignMessage env msg w)
  generalize hP : (fun out : World × MessageSignature =>
    ∃ new, out.1.log = w.log ++ new ∧ (messages new).length = 1) = P
  simp only [fsm_msgSignMessage, CHECK_INITIALIZED_fst, CHECK_PIN_fst,
    fsm_getCoin_fst, fsm_getDerivedNode_fst, fsm_checkCoinPath_fst,
    protectButton, fsm_layoutSignMessage, ask_fst]
  repeat' first
    | (refine ite_rule P _ _ _ ?_ ?_ <;> intros)
    | (refine orReturn_rule P _ _ _ ?_ ?_ <;> intros)
  all_goals
    subst hP
    simp_all [List.append_assoc, ite_fst, ite_snd, ite_log, ite_prompts,
      ite_append_append, ite_append_self, ite_self_append]

theorem fsm_msgVerifyMessage_oneTerminal (env : Env) (msg : VerifyMessage) :
    OneTerminal (fsm_msgVerifyMessage env msg) := by
  intro w
  show (fun out : World =>
    ∃ new, out.log = w.log ++ new ∧ (messages new).length = 1)
      (fsm_msgVerifyMessage env msg w)
  generalize hP : (fun out : World =>
    ∃ new, out.log = w.log ++ new ∧ (messages new).length = 1) = P
  simp only [fsm_msgVerifyMessage, fsm_getCoin_fst, protectButton,
    fsm_layoutVerifyMessage, ask_fst]
  repeat' first
    | (refine ite_rule P _ _ _ ?_ ?_ <;> intros)
    | (refine orReturn_rule P _ _ _ ?_ ?_ <;> intros)
  all_goals
    subst hP
    simp_all [List.append_assoc, ite_fst, ite_snd, ite_log, ite_prompts,
      ite_append_append, ite_append_self, ite_self_append]

theorem fsm_msgGetOwnershipId_oneTerminal (env : Env)
    (msg : GetOwnershipId) :
    OneTerminal (fun w => (fsm_msgGetOwnershipId env msg w).1) := by
  intro w
  show (fun out : World × OwnershipId =>
    ∃ new, out.1.log = w.log ++ new ∧ (messages new).length = 1)
      (fsm_msgGetOwnershipId env msg w)
  generalize hP : (fun out : World × OwnershipId =>
    ∃ new, out.1.log = w.log ++ new ∧ (messages new).length = 1) = P
  simp only [fsm_msgGetOwnershipId, CHECK_INITIALIZED_fst, CHECK_PIN_fst,
    fsm_getCoin_fst, fsm_getDerivedNode_fst, fsm_checkCoinPath_fst,
    fsm_checkScriptType_fst, fsm_getOwnershipId_fst]
  repeat' first
    | (refine ite_rule P _ _ _ ?_ ?_ <;> intros)
    | (refine orReturn_rule P _ _ _ ?_ ?_ <;> intros)
  all_goals
    subst hP
    simp_all [List.append_assoc, ite_fst, ite_snd, ite_log, ite_prompts,
      ite_append_append, ite_append_self, ite_self_append]

theorem fsm_msgGetOwnershipProof_oneTerminal (env : Env)
    (msg : GetOwnershipProof) :
    OneTerminal (fun w => (fsm_msgGetOwnershipProof env msg w).1) := by
  intro w
  show (fun out : World × OwnershipProof =>
    ∃ new, out.1.log = w.log ++ new ∧ (messages new).length = 1)
      (fsm_msgGetOwnershipProof env msg w)
  generalize hP : (fun out : World × OwnershipProof =>
    ∃ new, out.1.log = w.log ++ new ∧ (messages new).length = 1) = P
  simp only [fsm_msgGetOwnershipProof, CHECK_INITIALIZED_fst, CHECK_PIN_fst,
    fsm_getCoin_fst, fsm_getDerivedNode_fst, fsm_checkCoinPath_fst,
    fsm_checkScriptType_fst, fsm_getOwnershipId_fst, protectButton,
    fsm_layoutCommitmentData, ask_fst]
  repeat' first
    | (refine ite_rule P _ _ _ ?_ ?_ <;> intros)
    | (refine orReturn_rule P _ _ _ ?_ ?_ <;> intros)
  all_goals
    subst hP
    simp_all [List.append_assoc, ite_fst, ite_snd, ite_log, ite_prompts,
      ite_append_append, ite_append_self, ite_self_append]

/-- C4: each handler that ends with its own terminal message (GetPublicKey,
GetAddress, SignMessage, VerifyMessage, GetOwnershipId, GetOwnershipProof), for
every request and every behaviour of the collaborators, appends to the log a
sequence of events of which exactly one is a message: one response or success,
or one failure, never both. The helpers that signal failure through their
return value send exactly one failure when they fail and none when they
succeed. -/
theorem handlers_emit_one_terminal (env : Env) :
    (∀ msg, OneTerminal (fun w => (fsm_msgGetPublicKey env msg w).1)) ∧
      (∀ msg, OneTerminal (fun w => (fsm_msgGetAddress env msg w).1)) ∧
      (∀ msg, OneTerminal (fun w => (fsm_msgSignMessage env msg w).1)) ∧
      (∀ msg, OneTerminal (fsm_msgVerifyMessage env msg)) ∧
      (∀ msg, OneTerminal (fun w => (fsm_msgGetOwnershipId env msg w).1)) ∧
      (∀ msg, OneTerminal (fun w => (fsm_msgGetOwnershipProof env msg w).1)) :=
  ⟨fsm_msgGetPublicKey_oneTerminal env, fsm_msgGetAddress_oneTerminal env,
    fsm_msgSignMessage_oneTerminal env, fsm_msgVerifyMessage_oneTerminal env,
    fsm_msgGetOwnershipId_oneTerminal env,
    fsm_msgGetOwnershipProof_oneTerminal env⟩

/-- Witness of C6: a valid signature and three accepted prompts give
`Success "Message verified"`. -/
theorem fsm_msgVerifyMessage_outcome_witness :
    exEnv.coinByName exVerify.has_coin_name exVerify.coin_name = some exCoin ∧
      exVerify.signature.size = 65 ∧
      messages (fsm_msgVerifyMessage exEnv exVerify World.init).log =
        messages World.init.log ++
          [if exEnv.answer World.init.prompts &&
              exEnv.answer (World.init.prompts + 1) &&
              exEnv.answer (World.init.prompts + 2)
            then .success "Message verified"
            else .failure .Failure_ActionCancelled none] :=
  ⟨rfl, rfl,
    (fsm_msgVerifyMessage_outcome exEnv exVerify World.init exCoin rfl).2.2.2.1
      rfl rfl⟩

/-! ## The ownership-id check of GetOwnershipProof -/

theorem memcmp_one (a b : List Nat) :
    memcmp a b 1 = 0 ↔ a.headD 0 = b.headD 0 := by
  unfold memcmp
  generalize a.headD 0 = x
  generalize b.headD 0 = y
  split_ifs with h1 h2
  · simp
    omega
  · simp
    omega
  · simp [memcmp]
    omega

/-- What the check of lines 513-517 accepts for a single supplied identifier:
the size must be 32 and the first byte must agree; the other 31 bytes are not
compared, the length handed to `memcmp` being `sizeof(ownership_id) != 0`,
that is 1. -/
theorem ownershipIdsRejected_single (ownership_id : List Nat) (x : Bytes) :
    ownershipIdsRejected ownership_id [x] = false ↔
      x.size = 32 ∧ ownership_id.headD 0 = x.bytes.headD 0 := by
  have h := memcmp_one ownership_id x.bytes
  simp [ownershipIdsRejected, sizeof_ownership_id, cInt, h]

/-- C1 (the code at the failing input): the request `exWrongIdProof` supplies
one 32-byte identifier that differs from the computed identifier in 31 of its
32 bytes, the check does not reject it, and the handler sends an
OwnershipProof and no failure. -/
theorem fsm_msgGetOwnershipProof_accepts_wrong_id :
    (fsm_getOwnershipId exEnv [0, 20, 1, 2, 3] (List.replicate 32 0)
        World.init).2.1 = List.range 32 ∧
      exWrongIdProof.ownership_ids = [⟨32, 0 :: List.replicate 31 255⟩] ∧
      ownershipIdsRejected (List.range 32) exWrongIdProof.ownership_ids
        = false ∧
      failures (fsm_msgGetOwnershipProof exEnv exWrongIdProof World.init).1.log
        = [] ∧
      responses
          (fsm_msgGetOwnershipProof exEnv exWrongIdProof World.init).1.log =
        [.MessageType_OwnershipProof
          (fsm_msgGetOwnershipProof exEnv exWrongIdProof World.init).2] := by
  decide

/-! ## Lemmas on the calls, responses and failures of a log -/

@[simp] theorem calls_append (l₁ l₂ : List Event) :
    calls (l₁ ++ l₂) = calls l₁ ++ calls l₂ := by
  induction l₁ with
  | nil => rfl
  | cons e l ih => cases e <;> simp [calls, ih]

@[simp] theorem calls_nil : calls [] = [] := rfl

@[simp] theorem calls_ite (c : Prop) [Decidable c] (a b : List Event) :
    calls (if c then a else b) = if c then calls a else calls b := by
  split <;> rfl

@[simp] theorem calls_cons_call (c : Call) (l : List Event) :
    calls (.call c :: l) = c :: calls l := rfl

@[simp] theorem calls_cons_failure (t : FailureType) (x : Option String)
    (l : List Event) : calls (.failure t x :: l) = calls l := rfl

@[simp] theorem calls_cons_success (x : String) (l : List Event) :
    calls (.success x :: l) = calls l := rfl

@[simp] theorem calls_cons_msg_write (r : Response) (l : List Event) :
    calls (.msg_write r :: l) = calls l := rfl

@[simp] theorem calls_cons_screen (s : Screen) (l : List Event) :
    calls (.screen s :: l) = calls l := rfl

@[simp] theorem calls_cons_prompt (p : Prompt) (l : List Event) :
    calls (.prompt p :: l) = calls l := rfl

@[simp] theorem responses_append (l₁ l₂ : List Event) :
    responses (l₁ ++ l₂) = responses l₁ ++ responses l₂ := by
  induction l₁ with
  | nil => rfl
  | cons e l ih => cases e <;> simp [responses, ih]

@[simp] theorem responses_nil : responses [] = [] := rfl

@[simp] theorem responses_ite (c : Prop) [Decidable c] (a b : List Event) :
    responses (if c then a else b) =
      if c then responses a else responses b := by
  split <;> rfl

@[simp] theorem responses_cons_msg_write (r : Response) (l : List Event) :
    responses (.msg_write r :: l) = r :: responses l := rfl

@[simp] theorem responses_cons_failure (t : FailureType) (x : Option String)
    (l : List Event) : responses (.failure t x :: l) = responses l := rfl

@[simp] theorem responses_cons_success (x : String) (l : List Event) :
    responses (.success x :: l) = responses l := rfl

@[simp] theorem responses_cons_call (c : Call) (l : List Event) :
    responses (.call c :: l) = responses l := rfl

@[simp] theorem responses_cons_screen (s : Screen) (l : List Event) :
    responses (.screen s :: l) = responses l := rfl

@[simp] theorem responses_cons_prompt (p : Prompt) (l : List Event) :
    responses (.prompt p :: l) = responses l := rfl

@[simp] theorem responses_checkCoinPathEvents (env : Env) (coin : CoinInfo)
    (st : InputScriptType) (n : List Nat) (m sw : Bool) (k : Nat) :
    responses (checkCoinPathEvents env coin st n m sw k) = [] := by
  unfold checkCoinPathEvents
  split_ifs <;> simp_all

@[simp] theorem responses_checkScriptTypeEvents (env : Env) (coin : CoinInfo)
    (st : InputScriptType) :
    responses (checkScriptTypeEvents env coin st) = [] := by
  unfold checkScriptTypeEvents
  split_ifs <;> simp_all

/-! ## The xpub magic of GetPublicKey -/

/-- The branch chain of lines 77-108 against the §4.5 table: the chain picks
the magic the table names when that magic is non-zero, and the final `else`
otherwise. -/
theorem xpubMagic_eq_table (coin : CoinInfo) (st : InputScriptType)
    (ig : Bool) :
    xpubMagic coin st ig =
      (tableMagic coin st ig).bind (fun m => if m ≠ 0 then some m else none)
      := by
  unfold xpubMagic tableMagic
  cases st <;> cases hs : coin.has_segwit <;> cases ht : coin.has_taproot <;>
    cases ig <;> simp

/-- C2, as amended: for every GetPublicKey request that reaches xpub
serialization (gates passed, coin resolved, path not forbidden, both
derivations and the public-key fill succeeded), the handler takes the magic the
§4.5 table names for (script_type, has_segwit, has_taproot, ignore_xpub_magic);
when that magic is non-zero `hdnode_serialize_public` is called once, with
exactly this magic; when it is zero, or the table does not cover the
combination, the handler calls no serialization, sends
`Failure_DataError "Invalid combination of coin and script_type"` and no
PublicKey response. -/
theorem fsm_msgGetPublicKey_magic (env : Env) (msg : GetPublicKey) (w : World)
    (coin : CoinInfo) (nf0 nf : HDNode × Nat)
    (hinit : env.config_isInitialized = true) (hpin : env.protectPin = true)
    (hcoin : env.coinByName msg.has_coin_name msg.coin_name = some coin)
    (hpath : ¬ (msg.address_n.length > 0 ∧
      msg.address_n.headD 0 = PATH_SLIP25_PURPOSE ∧
      env.config_getSafetyCheckLevel = .Strict))
    (hd0 : env.deriveNode
      (if msg.has_ecdsa_curve_name then msg.ecdsa_curve_name
        else coin.curve_name) [PATH_HARDENED ||| 0] = some nf0)
    (hd : env.deriveNode
      (if msg.has_ecdsa_curve_name then msg.ecdsa_curve_name
        else coin.curve_name) msg.address_n = some nf)
    (hfill : (env.hdnode_fill_public_key nf.1).1 = 0) :
    (∀ magic,
        (tableMagic coin
            (if msg.has_script_type then msg.script_type else .SPENDADDRESS)
            msg.ignore_xpub_magic = some magic ∧ magic ≠ 0) →
        calls (fsm_msgGetPublicKey env msg w).1.log = calls w.log ++
          [.hdnode_serialize_public nf.2 magic]) ∧
      ((tableMagic coin
            (if msg.has_script_type then msg.script_type else .SPENDADDRESS)
            msg.ignore_xpub_magic = none ∨
          tableMagic coin
            (if msg.has_script_type then msg.script_type else .SPENDADDRESS)
            msg.ignore_xpub_magic = some 0) →
        calls (fsm_msgGetPublicKey env msg w).1.log = calls w.log ∧
          messages (fsm_msgGetPublicKey env msg w).1.log = messages w.log ++
            [.failure .Failure_DataError
              (some "Invalid combination of coin and script_type")] ∧
          responses (fsm_msgGetPublicKey env msg w).1.log
            = responses w.log) := by
  have hd0' := hd0
  rw [Nat.or_zero] at hd0'
  constructor
  · intro magic hm
    have hx : xpubMagic coin
        (if msg.has_script_type then msg.script_type else .SPENDADDRESS)
        msg.ignore_xpub_magic = some magic := by
      rw [xpubMagic_eq_table, hm.1]
      simp [hm.2]
    simp only [fsm_msgGetPublicKey, CHECK_INITIALIZED_fst, CHECK_PIN_fst,
      fsm_getCoin_fst, fsm_getDerivedNode_fst, hinit, hpin, hcoin, hd0, hd,
      hx, orReturn_some, hpath, hfill]
    simp [hinit, hpin, hcoin, hd0', hd, ite_fst, ite_snd, ite_log,
      ite_append_append, ite_append_self, ite_self_append]
  · intro hm
    have hx : xpubMagic coin
        (if msg.has_script_type then msg.script_type else .SPENDADDRESS)
        msg.ignore_xpub_magic = none := by
      rw [xpubMagic_eq_table]
      rcases hm with h | h <;> simp [h]
    simp only [fsm_msgGetPublicKey, CHECK_INITIALIZED_fst, CHECK_PIN_fst,
      fsm_getCoin_fst, fsm_getDerivedNode_fst, hinit, hpin, hcoin, hd0, hd,
      hx, orReturn_some, orReturn_none, hpath, hfill]
    simp [hinit, hpin, hcoin, hd0', hd]

/-- Witness of C2: Bitcoin, P2SH-wrapped segwit, `ignore_xpub_magic` unset:
the serialization is called with `xpub_magic_segwit_p2sh`. -/
theorem fsm_msgGetPublicKey_magic_witness :
    exEnv.config_isInitialized = true ∧ exEnv.protectPin = true ∧
      tableMagic exCoin .SPENDP2SHWITNESS false = some 0x049d7cb2 ∧
      calls (fsm_msgGetPublicKey exEnv exPublicKeyP2sh World.init).1.log =
        calls World.init.log ++
          [.hdnode_serialize_public (exNode, 0x12345678).2 0x049d7cb2] :=
  ⟨rfl, rfl, by decide,
    (fsm_msgGetPublicKey_magic exEnv exPublicKeyP2sh World.init exCoin
      (exNode, 0x12345678) (exNode, 0x12345678) rfl rfl rfl (by decide) rfl
      rfl rfl).1 0x049d7cb2 (by decide)⟩

/-- C2 (counterexample): a segwit coin whose `xpub_magic_segwit_p2sh` is zero,
script type SPENDP2SHWITNESS, `ignore_xpub_magic` unset. The table names
`xpub_magic_segwit_p2sh` for this combination, yet the handler calls no
serialization and sends `Failure_DataError`. -/
theorem fsm_msgGetPublicKey_zero_magic_fails :
    exCoinNoP2sh.has_segwit = true ∧
      exPublicKeyP2sh.has_script_type = true ∧
      exPublicKeyP2sh.script_type = .SPENDP2SHWITNESS ∧
      exPublicKeyP2sh.ignore_xpub_magic = false ∧
      tableMagic exCoinNoP2sh .SPENDP2SHWITNESS false =
        some exCoinNoP2sh.xpub_magic_segwit_p2sh ∧
      calls (fsm_msgGetPublicKey exEnvNoP2sh exPublicKeyP2sh World.init).1.log
        = [] ∧
      messages
          (fsm_msgGetPublicKey exEnvNoP2sh exPublicKeyP2sh World.init).1.log =
        [.failure .Failure_DataError
          (some "Invalid combination of coin and script_type")] := by
  decide

/-! ## Lemmas on byte buffers -/

@[simp] theorem readBytes_length (b : List Nat) (n : Nat) :
    (readBytes b n).length = n := by
  simp [readBytes]

theorem readBytes_getD (b : List Nat) (n i : Nat) (h : i < n) :
    (readBytes b n).getD i 0 = b.getD i 0 := by
  simp [readBytes, List.getD_eq_getElem?_getD, List.getElem?_map,
    List.getElem?_range h]

@[simp] theorem readBytes_readBytes (b : List Nat) (n : Nat) :
    readBytes (readBytes b n) n = readBytes b n := by
  unfold readBytes
  apply List.map_congr_left
  intro i hi
  have h := readBytes_getD b n i (List.mem_range.mp hi)
  unfold readBytes at h
  exact h

theorem readBytes_self (l : List Nat) : readBytes l l.length = l := by
  apply List.ext_getElem
  · simp
  · intro i h1 h2
    simp [readBytes, List.getD_eq_getElem?_getD, List.getElem?_eq_getElem h2]

theorem writeAt_zero_of_le (buf src : List Nat)
    (h : buf.length ≤ src.length) : writeAt buf 0 src = src := by
  simp [writeAt, readBytes, List.drop_eq_nil_of_le h]

theorem writeAt_end (buf src : List Nat) :
    writeAt buf buf.length src = buf ++ src := by
  simp [writeAt, readBytes_self]

/-! ## Multisig in the ownership handlers -/

/-- C3, as amended: `fsm_msgGetOwnershipProof` supports only singlesig: for
every request with `has_multisig` set that has passed the initialized and PIN
gates it sends `Failure_DataError "Multisig not supported."` and nothing else,
and its response buffer stays zeroed. `fsm_msgGetOwnershipId` has no such
check: it hands `has_multisig` and the descriptor to the path check and to the
scriptPubKey derivation, and when these and the other collaborators succeed it
sends an OwnershipId response with the 32-byte identifier of that
scriptPubKey, whether `has_multisig` is set or not. -/
theorem ownership_handlers_multisig (env : Env) :
    (∀ (msg : GetOwnershipProof) (w : World),
        env.config_isInitialized = true → env.protectPin = true →
        msg.has_multisig = true →
        (fsm_msgGetOwnershipProof env msg w).1.log = w.log ++
            [.failure .Failure_DataError (some "Multisig not supported."),
              .screen .layoutHome] ∧
          (fsm_msgGetOwnershipProof env msg w).2 = OwnershipProof.init) ∧
      (∀ (msg : GetOwnershipId) (w : World) (coin : CoinInfo)
          (nf : HDNode × Nat) (script_pubkey key : List Nat),
        env.config_isInitialized = true → env.protectPin = true →
        env.coinByName msg.has_coin_name msg.coin_name = some coin →
        (fsm_checkCoinPath env coin msg.script_type msg.address_n
          msg.has_multisig false w).1 = true →
        (fsm_checkScriptType env coin msg.script_type w).1 = true →
        env.deriveNode coin.curve_name msg.address_n = some nf →
        (env.get_script_pubkey coin nf.1 msg.has_multisig msg.multisig
          msg.script_type).1 = some script_pubkey →
        env.slip21Key ["SLIP-0019", "Ownership identification key"]
          = some key →
        messages (fsm_msgGetOwnershipId env msg w).1.log = messages w.log ++
          [.msg_write (.MessageType_OwnershipId
            ⟨⟨32, readBytes
              (env.hmac_sha256 (readBytes key 32) script_pubkey) 32⟩⟩)]) := by
  constructor
  · intro msg w hinit hpin hm
    simp [fsm_msgGetOwnershipProof, hinit, hpin, hm]
  · intro msg w coin nf script_pubkey key hinit hpin hcoin hpath hst hd hsp hkey
    simp only [fsm_checkCoinPath_fst] at hpath
    simp only [fsm_checkScriptType_fst] at hst
    simp only [fsm_msgGetOwnershipId, CHECK_INITIALIZED_fst, CHECK_PIN_fst,
      fsm_getCoin_fst, fsm_getDerivedNode_fst, fsm_checkCoinPath_fst,
      fsm_checkScriptType_fst, fsm_getOwnershipId_fst, hinit, hpin, hcoin, hd,
      hsp, orReturn_some, hkey, fsm_getOwnershipId_id]
    simp [hinit, hpin, hcoin, hd, hkey, hpath, hst, OwnershipId.init,
      Bytes.zero, writeAt_zero_of_le]

/-- C3 (counterexample): a GetOwnershipId request with `has_multisig` set on
an initialized, unlocked device: the handler sends an OwnershipId response and
no failure. -/
theorem fsm_msgGetOwnershipId_accepts_multisig :
    exEnv.config_isInitialized = true ∧ exEnv.protectPin = true ∧
      exMultisigId.has_multisig = true ∧
      failures (fsm_msgGetOwnershipId exEnv exMultisigId World.init).1.log
        = [] ∧
      responses (fsm_msgGetOwnershipId exEnv exMultisigId World.init).1.log =
        [.MessageType_OwnershipId ⟨⟨32, List.range 32⟩⟩] := by
  decide

/-! ## The response buffer on the abort paths: GetAddress, GetOwnershipId -/

theorem OwnershipProof.init_isZero : OwnershipProof.init.isZero = true := by
  decide

theorem OwnershipProof.init_bytes :
    OwnershipProof.init.ownership_proof.bytes = [] := rfl

/-! ## The layout of the ownership proof -/

theorem writeAt_of_length (buf src : List Nat) (off : Nat)
    (h : off = buf.length) : writeAt buf off src = buf ++ src := by
  subst h
  exact writeAt_end buf src

/-- Lines 547-554 on the zeroed buffer: the 38 bytes written and the write
position after them. -/
theorem proofPrefix_nil (flags : Nat) (ownership_id : List Nat) :
    proofPrefix [] flags ownership_id =
      ([0x53, 0x4C, 0x00, 0x19, flags, 0x01] ++ readBytes ownership_id 32,
        38) := by
  unfold proofPrefix
  have e1 : writeAt [] 0 [0x53, 0x4C, 0x00, 0x19] = [0x53, 0x4C, 0x00, 0x19] :=
    writeAt_zero_of_le _ _ (by simp)
  have e2 : writeAt [0x53, 0x4C, 0x00, 0x19] (0 + 4) [flags] =
      [0x53, 0x4C, 0x00, 0x19, flags] := writeAt_of_length _ _ _ rfl
  have e3 : writeAt [0x53, 0x4C, 0x00, 0x19, flags] (0 + 4 + 1) (ser_length 1)
      = [0x53, 0x4C, 0x00, 0x19, flags, 0x01] := writeAt_of_length _ _ _ rfl
  have e4 : writeAt [0x53, 0x4C, 0x00, 0x19, flags, 0x01]
      (0 + 4 + 1 + (ser_length 1).length)
      (readBytes ownership_id sizeof_ownership_id) =
      [0x53, 0x4C, 0x00, 0x19, flags, 0x01] ++ readBytes ownership_id 32 :=
    writeAt_of_length _ _ _ rfl
  simp only [e1, e2, e3, e4]
  rfl

/-- The identifier `fsm_getOwnershipId` leaves in a zeroed 32-byte buffer. -/
theorem ownership_id_bytes (env : Env) (key script_pubkey : List Nat) :
    writeAt (List.replicate sizeof_ownership_id 0) 0
        (readBytes
          (env.hmac_sha256
            (readBytes (writeAt (List.replicate 32 0) 0 (readBytes key 32)) 32)
            script_pubkey) 32) =
      readBytes (env.hmac_sha256 (readBytes key 32) script_pubkey) 32 := by
  rw [writeAt_zero_of_le _ _ (by simp [sizeof_ownership_id]),
    writeAt_zero_of_le _ _ (by simp), readBytes_readBytes]

/-- The bytes of a proof: the prefix, the empty scriptSig and the witness. -/
theorem proof_bytes (flags : Nat) (ownership_id wit : List Nat) :
    writeAt
        (writeAt (proofPrefix [] flags ownership_id).1
          (proofPrefix [] flags ownership_id).2 (ser_length 0))
        ((proofPrefix [] flags ownership_id).2 + (ser_length 0).length) wit =
      ([0x53, 0x4C, 0x00, 0x19, flags, 0x01] ++ readBytes ownership_id 32) ++
        0x00 :: wit := by
  rw [proofPrefix_nil]
  have e1 : writeAt
      ([0x53, 0x4C, 0x00, 0x19, flags, 0x01] ++ readBytes ownership_id 32) 38
      (ser_length 0) =
      ([0x53, 0x4C, 0x00, 0x19, flags, 0x01] ++ readBytes ownership_id 32) ++
        [0x00] := writeAt_of_length _ _ _ (by simp)
  simp only [e1]
  rw [writeAt_of_length _ _ _ (by simp [ser_length])]
  simp

theorem proofLayout_intro (env : Env) (msg : GetOwnershipProof)
    (coin : CoinInfo) (nf : HDNode × Nat) (script_pubkey key wit : List Nat)
    (sig : Bytes)
    (hcoin : env.coinByName msg.has_coin_name msg.coin_name = some coin)
    (hd : env.deriveNode coin.curve_name msg.address_n = some nf)
    (hs : (env.get_script_pubkey coin nf.1 msg.has_multisig msg.multisig
      msg.script_type).1 = some script_pubkey)
    (hkey : env.slip21Key ["SLIP-0019", "Ownership identification key"]
      = some key)
    (hwit : wit = env.serialize_p2wpkh_witness sig.bytes sig.size
        (env.get_script_pubkey coin nf.1 msg.has_multisig msg.multisig
          msg.script_type).2.public_key 33 env.SIGHASH_ALL ∨
      wit = env.serialize_p2tr_witness sig.bytes sig.size 0) :
    ProofLayout env msg
      { ownership_proof :=
          ⟨(proofPrefix [] (if msg.user_confirmation then 1 else 0)
              (writeAt (List.replicate sizeof_ownership_id 0) 0
                (readBytes
                  (env.hmac_sha256
                    (readBytes
                      (writeAt (List.replicate 32 0) 0 (readBytes key 32)) 32)
                    script_pubkey) 32))).2 + (ser_length 0).length +
              wit.length,
            writeAt
              (writeAt
                (proofPrefix [] (if msg.user_confirmation then 1 else 0)
                  (writeAt (List.replicate sizeof_ownership_id 0) 0
                    (readBytes
                      (env.hmac_sha256
                        (readBytes
                          (writeAt (List.replicate 32 0) 0 (readBytes key 32))
                          32)
                        script_pubkey) 32))).1
                (proofPrefix [] (if msg.user_confirmation then 1 else 0)
                  (writeAt (List.replicate sizeof_ownership_id 0) 0
                    (readBytes
                      (env.hmac_sha256
                        (readBytes
                          (writeAt (List.replicate 32 0) 0 (readBytes key 32))
                          32)
                        script_pubkey) 32))).2
                (ser_length 0))
              ((proofPrefix [] (if msg.user_confirmation then 1 else 0)
                  (writeAt (List.replicate sizeof_ownership_id 0) 0
                    (readBytes
                      (env.hmac_sha256
                        (readBytes
                          (writeAt (List.replicate 32 0) 0 (readBytes key 32))
                          32)
                        script_pubkey) 32))).2 + (ser_length 0).length)
              wit⟩,
        signature := sig } := by
  refine ⟨coin, nf, script_pubkey, key, wit, hcoin, hd, hs, hkey, hwit, ?_, ?_,
    ?_⟩
  · simp only [proof_bytes, ownership_id_bytes, readBytes_readBytes]
    rw [List.take_left' (by simp)]
  · simp only [proof_bytes, ownership_id_bytes, readBytes_readBytes]
    rw [List.drop_left' (by simp)]
  · simp only [proofPrefix_nil, ser_length]
    simp

theorem fsm_msgGetOwnershipProof_layout_walk (env : Env)
    (msg : GetOwnershipProof) (w : World) :
    ∀ r, Event.msg_write (.MessageType_OwnershipProof r) ∈
        (fsm_msgGetOwnershipProof env msg w).1.log.drop w.log.length →
      ProofLayout env msg r := by
  show (fun out : World × OwnershipProof =>
    ∀ r, Event.msg_write (.MessageType_OwnershipProof r) ∈
        out.1.log.drop w.log.length → ProofLayout env msg r)
      (fsm_msgGetOwnershipProof env msg w)
  generalize hP : (fun out : World × OwnershipProof =>
    ∀ r, Event.msg_write (.MessageType_OwnershipProof r) ∈
        out.1.log.drop w.log.length → ProofLayout env msg r) = P
  simp only [fsm_msgGetOwnershipProof, CHECK_INITIALIZED_fst, CHECK_PIN_fst,
    fsm_getCoin_fst, fsm_getDerivedNode_fst, fsm_checkCoinPath_fst,
    fsm_checkScriptType_fst, fsm_getOwnershipId_fst, protectButton,
    fsm_layoutCommitmentData, ask_fst, fsm_getOwnershipId_id,
    CHECK_INITIALIZED_prompts, CHECK_PIN_prompts, fsm_getCoin_prompts,
    fsm_getDerivedNode_prompts, fsm_checkCoinPath_prompts,
    fsm_checkScriptType_prompts, fsm_getOwnershipId_prompts, prompts_draw,
    prompts_ask, ite_fst, OwnershipProof.init_bytes]
  repeat' first
    | (refine ite_rule P _ _ _ ?_ ?_ <;> intros)
    | (refine orReturn_rule P _ _ _ ?_ ?_ <;> intros)
  all_goals
    subst hP
    try simp_all [List.append_assoc, ite_fst, ite_snd, ite_log, ite_prompts,
      ite_append_append, ite_append_self, ite_self_append, mem_ite_list]
  all_goals
    obtain ⟨key, hkey⟩ :=
      Option.ne_none_iff_exists'.mp ‹¬ env.slip21Key _ = none›
    have hm : msg.has_multisig = false := by assumption
    simp only [hkey]
  · have hst : msg.script_type = .SPENDWITNESS := by assumption
    exact proofLayout_intro env msg _ _ _ key _ _ (by assumption)
      (by assumption) (by rw [hm, hst]; assumption) hkey
      (Or.inl (by rw [hm, hst]))
  · have hst : msg.script_type = .SPENDTAPROOT := by assumption
    exact proofLayout_intro env msg _ _ _ key _ _ (by assumption)
      (by assumption) (by rw [hm, hst]; assumption) hkey (Or.inr rfl)

/-- C9: for every OwnershipProof response that `fsm_msgGetOwnershipProof`
emits, the first 38 bytes of `ownership_proof` are `53 4C 00 19`, the one
flags byte, the one-byte compact integer `01` and the 32 bytes of the
ownership identifier of the scriptPubKey derived for the node of the request;
the byte that follows is the empty-scriptSig length `00`, the remaining bytes
are the ones the witness serializer wrote, and `ownership_proof.size` is 39
plus their number. -/
theorem fsm_msgGetOwnershipProof_layout (env : Env) (msg : GetOwnershipProof)
    (w : World) (r : OwnershipProof)
    (h : Event.msg_write (.MessageType_OwnershipProof r) ∈
      (fsm_msgGetOwnershipProof env msg w).1.log.drop w.log.length) :
    ProofLayout env msg r :=
  fsm_msgGetOwnershipProof_layout_walk env msg w r h

/-- Witness of C9: the proof `exEnv` gives for the request `exProof`. -/
theorem fsm_msgGetOwnershipProof_layout_witness :
    Event.msg_write (.MessageType_OwnershipProof
        (fsm_msgGetOwnershipProof exEnv exProof World.init).2) ∈
      (fsm_msgGetOwnershipProof exEnv exProof World.init).1.log.drop
        World.init.log.length ∧
      (fsm_msgGetOwnershipProof exEnv exProof
          World.init).2.ownership_proof.bytes =
        [0x53, 0x4C, 0x00, 0x19, 0, 1] ++ List.range 32 ++
          [0, 2, 48, 6, 1, 2] ++ List.replicate 32 5 ∧
      ProofLayout exEnv exProof
        (fsm_msgGetOwnershipProof exEnv exProof World.init).2 :=
  ⟨by decide, by decide,
    fsm_msgGetOwnershipProof_layout exEnv exProof World.init _ (by decide)⟩

/-! ## The user-confirmation bit of the ownership proof -/

theorem checkCoinPathEvents_of_ok (env : Env) (coin : CoinInfo)
    (st : InputScriptType) (n : List Nat) (m : Bool) (k : Nat)
    (h : checkCoinPathOk env coin st n m false k = true) :
    checkCoinPathEvents env coin st n m false k = [] := by
  unfold checkCoinPathOk at h
  unfold checkCoinPathEvents
  split_ifs at * <;> simp_all

theorem checkScriptTypeEvents_of_ok (env : Env) (coin : CoinInfo)
    (st : InputScriptType) (h : checkScriptTypeOk env coin st = true) :
    checkScriptTypeEvents env coin st = [] := by
  unfold checkScriptTypeOk at h
  unfold checkScriptTypeEvents
  split_ifs at *
  simp_all

theorem checkCoinPathPrompts_false (env : Env) (coin : CoinInfo)
    (st : InputScriptType) (n : List Nat) (m : Bool) :
    checkCoinPathPrompts env coin st n m false = 0 := by
  unfold checkCoinPathPrompts
  split_ifs <;> simp_all

theorem fsm_msgGetOwnershipProof_emit_walk (env : Env)
    (msg : GetOwnershipProof) (w : World) :
    ∀ r, Event.msg_write (.MessageType_OwnershipProof r) ∈
        (fsm_msgGetOwnershipProof env msg w).1.log.drop w.log.length →
      r.ownership_proof.bytes.getD 4 0 =
          (if msg.user_confirmation then 1 else 0) ∧
        (∃ c, (fsm_msgGetOwnershipProof env msg w).1.log.drop w.log.length =
          confirmEvents msg ++ [.call c,
            .msg_write (.MessageType_OwnershipProof r), .screen .layoutHome]) ∧
        (msg.user_confirmation = true → env.answer w.prompts = true ∧
          (msg.has_commitment_data = true →
            env.answer (w.prompts + 1) = true)) := by
  show (fun out : World × OwnershipProof =>
    ∀ r, Event.msg_write (.MessageType_OwnershipProof r) ∈
        out.1.log.drop w.log.length →
      r.ownership_proof.bytes.getD 4 0 =
          (if msg.user_confirmation then 1 else 0) ∧
        (∃ c, out.1.log.drop w.log.length =
          confirmEvents msg ++ [.call c,
            .msg_write (.MessageType_OwnershipProof r), .screen .layoutHome]) ∧
        (msg.user_confirmation = true → env.answer w.prompts = true ∧
          (msg.has_commitment_data = true →
            env.answer (w.prompts + 1) = true)))
      (fsm_msgGetOwnershipProof env msg w)
  generalize hP : (fun out : World × OwnershipProof =>
    ∀ r, Event.msg_write (.MessageType_OwnershipProof r) ∈
        out.1.log.drop w.log.length →
      r.ownership_proof.bytes.getD 4 0 =
          (if msg.user_confirmation then 1 else 0) ∧
        (∃ c, out.1.log.drop w.log.length =
          confirmEvents msg ++ [.call c,
            .msg_write (.MessageType_OwnershipProof r), .screen .layoutHome]) ∧
        (msg.user_confirmation = true → env.answer w.prompts = true ∧
          (msg.has_commitment_data = true →
            env.answer (w.prompts + 1) = true))) = P
  simp only [fsm_msgGetOwnershipProof, CHECK_INITIALIZED_fst, CHECK_PIN_fst,
    fsm_getCoin_fst, fsm_getDerivedNode_fst, fsm_checkCoinPath_fst,
    fsm_checkScriptType_fst, fsm_getOwnershipId_fst, protectButton,
    fsm_layoutCommitmentData, ask_fst, fsm_getOwnershipId_id,
    CHECK_INITIALIZED_prompts, CHECK_PIN_prompts, fsm_getCoin_prompts,
    fsm_getDerivedNode_prompts, fsm_checkCoinPath_prompts,
    fsm_checkScriptType_prompts, fsm_getOwnershipId_prompts, prompts_draw,
    prompts_ask, ite_fst, OwnershipProof.init_bytes,
    checkCoinPathPrompts_false, Nat.add_zero]
  repeat' first
    | (refine ite_rule P _ _ _ ?_ ?_ <;> intros)
    | (refine orReturn_rule P _ _ _ ?_ ?_ <;> intros)
  all_goals
    subst hP
    try simp_all [List.append_assoc, ite_fst, ite_snd, ite_log, ite_prompts,
      ite_append_append, ite_append_self, ite_self_append, mem_ite_list,
      checkCoinPathEvents_of_ok, checkScriptTypeEvents_of_ok]
  · refine ⟨?_, .tx_sign_ecdsa, ?_⟩
    · rw [proof_bytes]
      simp
    · unfold confirmEvents
      split_ifs <;> rfl
  · refine ⟨?_, .tx_sign_bip340, ?_⟩
    · rw [proof_bytes]
      simp
    · unfold confirmEvents
      split_ifs <;> rfl

@[simp] theorem promptCount_append (l₁ l₂ : List Event) :
    promptCount (l₁ ++ l₂) = promptCount l₁ + promptCount l₂ := by
  induction l₁ with
  | nil => simp [promptCount]
  | cons e l ih =>
    cases e <;> simp [promptCount, ih]
    omega

@[simp] theorem promptCount_nil : promptCount [] = 0 := rfl

@[simp] theorem promptCount_ite (c : Prop) [Decidable c] (a b : List Event) :
    promptCount (if c then a else b) =
      if c then promptCount a else promptCount b := by
  split <;> rfl

@[simp] theorem promptCount_cons_prompt (p : Prompt) (l : List Event) :
    promptCount (.prompt p :: l) = promptCount l + 1 := rfl

@[simp] theorem promptCount_cons_failure (t : FailureType) (x : Option String)
    (l : List Event) : promptCount (.failure t x :: l) = promptCount l := rfl

@[simp] theorem promptCount_cons_success (x : String) (l : List Event) :
    promptCount (.success x :: l) = promptCount l := rfl

@[simp] theorem promptCount_cons_msg_write (r : Response) (l : List Event) :
    promptCount (.msg_write r :: l) = promptCount l := rfl

@[simp] theorem promptCount_cons_screen (s : Screen) (l : List Event) :
    promptCount (.screen s :: l) = promptCount l := rfl

@[simp] theorem promptCount_cons_call (c : Call) (l : List Event) :
    promptCount (.call c :: l) = promptCount l := rfl

@[simp] theorem prompted_append (env : Env) (k : Nat) (l₁ l₂ : List Event) :
    prompted env k (l₁ ++ l₂) =
      prompted env k l₁ ++ prompted env (k + promptCount l₁) l₂ := by
  induction l₁ generalizing k with
  | nil => simp [prompted]
  | cons e l ih =>
    cases e <;> simp [prompted, ih, Nat.add_assoc, Nat.add_comm 1]

@[simp] theorem prompted_nil (env : Env) (k : Nat) : prompted env k [] = [] :=
  rfl

@[simp] theorem prompted_ite (env : Env) (k : Nat) (c : Prop) [Decidable c]
    (a b : List Event) :
    prompted env k (if c then a else b) =
      if c then prompted env k a else prompted env k b := by
  split <;> rfl

@[simp] theorem prompted_cons_prompt (env : Env) (k : Nat) (p : Prompt)
    (l : List Event) :
    prompted env k (.prompt p :: l) =
      (p, env.answer k) :: prompted env (k + 1) l := rfl

@[simp] theorem prompted_cons_failure (env : Env) (k : Nat) (t : FailureType)
    (x : Option String) (l : List Event) :
    prompted env k (.failure t x :: l) = prompted env k l := rfl

@[simp] theorem prompted_cons_success (env : Env) (k : Nat) (x : String)
    (l : List Event) : prompted env k (.success x :: l) = prompted env k l :=
  rfl

@[simp] theorem prompted_cons_msg_write (env : Env) (k : Nat) (r : Response)
    (l : List Event) :
    prompted env k (.msg_write r :: l) = prompted env k l := rfl

@[simp] theorem prompted_cons_screen (env : Env) (k : Nat) (s : Screen)
    (l : List Event) : prompted env k (.screen s :: l) = prompted env k l :=
  rfl

@[simp] theorem prompted_cons_call (env : Env) (k : Nat) (c : Call)
    (l : List Event) : prompted env k (.call c :: l) = prompted env k l := rfl

@[simp] theorem promptCount_checkCoinPathEvents (env : Env) (coin : CoinInfo)
    (st : InputScriptType) (n : List Nat) (m : Bool) (k : Nat) :
    promptCount (checkCoinPathEvents env coin st n m false k) = 0 := by
  unfold checkCoinPathEvents
  split_ifs <;> simp_all

@[simp] theorem prompted_checkCoinPathEvents (env : Env) (coin : CoinInfo)
    (st : InputScriptType) (n : List Nat) (m : Bool) (j k : Nat) :
    prompted env j (checkCoinPathEvents env coin st n m false k) = [] := by
  unfold checkCoinPathEvents
  split_ifs <;> simp_all

@[simp] theorem promptCount_checkScriptTypeEvents (env : Env)
    (coin : CoinInfo) (st : InputScriptType) :
    promptCount (checkScriptTypeEvents env coin st) = 0 := by
  unfold checkScriptTypeEvents
  split_ifs <;> simp_all

@[simp] theorem prompted_checkScriptTypeEvents (env : Env) (coin : CoinInfo)
    (st : InputScriptType) (j : Nat) :
    prompted env j (checkScriptTypeEvents env coin st) = [] := by
  unfold checkScriptTypeEvents
  split_ifs <;> simp_all

@[simp] theorem calls_checkCoinPathEvents (env : Env) (coin : CoinInfo)
    (st : InputScriptType) (n : List Nat) (m sw : Bool) (k : Nat) :
    calls (checkCoinPathEvents env coin st n m sw k) = [] := by
  unfold checkCoinPathEvents
  split_ifs <;> simp_all

@[simp] theorem calls_checkScriptTypeEvents (env : Env) (coin : CoinInfo)
    (st : InputScriptType) :
    calls (checkScriptTypeEvents env coin st) = [] := by
  unfold checkScriptTypeEvents
  split_ifs <;> simp_all

theorem fsm_msgGetOwnershipProof_decline_walk (env : Env)
    (msg : GetOwnershipProof) (w : World) :
    ∀ p, (p, false) ∈ prompted env w.prompts
        ((fsm_msgGetOwnershipProof env msg w).1.log.drop w.log.length) →
      messages ((fsm_msgGetOwnershipProof env msg w).1.log.drop w.log.length) =
          [.failure .Failure_ActionCancelled none] ∧
        responses
          ((fsm_msgGetOwnershipProof env msg w).1.log.drop w.log.length) = [] ∧
        calls
          ((fsm_msgGetOwnershipProof env msg w).1.log.drop w.log.length) =
          [] := by
  show (fun out : World × OwnershipProof =>
    ∀ p, (p, false) ∈ prompted env w.prompts
        (out.1.log.drop w.log.length) →
      messages (out.1.log.drop w.log.length) =
          [.failure .Failure_ActionCancelled none] ∧
        responses (out.1.log.drop w.log.length) = [] ∧
        calls (out.1.log.drop w.log.length) = [])
      (fsm_msgGetOwnershipProof env msg w)
  generalize hP : (fun out : World × OwnershipProof =>
    ∀ p, (p, false) ∈ prompted env w.prompts
        (out.1.log.drop w.log.length) →
      messages (out.1.log.drop w.log.length) =
          [.failure .Failure_ActionCancelled none] ∧
        responses (out.1.log.drop w.log.length) = [] ∧
        calls (out.1.log.drop w.log.length) = []) = P
  simp only [fsm_msgGetOwnershipProof, CHECK_INITIALIZED_fst, CHECK_PIN_fst,
    fsm_getCoin_fst, fsm_getDerivedNode_fst, fsm_checkCoinPath_fst,
    fsm_checkScriptType_fst, fsm_getOwnershipId_fst, protectButton,
    fsm_layoutCommitmentData, ask_fst, fsm_getOwnershipId_id,
    CHECK_INITIALIZED_prompts, CHECK_PIN_prompts, fsm_getCoin_prompts,
    fsm_getDerivedNode_prompts, fsm_checkCoinPath_prompts,
    fsm_checkScriptType_prompts, fsm_getOwnershipId_prompts, prompts_draw,
    prompts_ask, ite_fst, OwnershipProof.init_bytes,
    checkCoinPathPrompts_false, Nat.add_zero]
  repeat' first
    | (refine ite_rule P _ _ _ ?_ ?_ <;> intros)
    | (refine orReturn_rule P _ _ _ ?_ ?_ <;> intros)
  all_goals
    subst hP
    try simp_all [List.append_assoc, ite_fst, ite_snd, ite_log, ite_prompts,
      ite_append_append, ite_append_self, ite_self_append, mem_ite_list,
      checkCoinPathEvents_of_ok, checkScriptTypeEvents_of_ok]

/-- C11: for every OwnershipProof response that `fsm_msgGetOwnershipProof`
emits, the flags byte (byte 4 of the proof) is 1 when the request has
`user_confirmation` set and 0 otherwise; when it is set, the events before the
response hold the ownership-proof confirmation screen and its button prompt,
answered with yes, and, if the request has commitment data, the commitment-data
prompt, answered with yes. If the button prompt or the commitment-data prompt
is answered with no, the only message of the handler is
`Failure_ActionCancelled`, no response is written and no signing function is
called. -/
theorem fsm_msgGetOwnershipProof_user_confirmation (env : Env)
    (msg : GetOwnershipProof) (w : World) :
    (∀ r, Event.msg_write (.MessageType_OwnershipProof r) ∈
        (fsm_msgGetOwnershipProof env msg w).1.log.drop w.log.length →
      r.ownership_proof.bytes.getD 4 0 =
          (if msg.user_confirmation then 1 else 0) ∧
        (msg.user_confirmation = true →
          ∃ pre post,
            (fsm_msgGetOwnershipProof env msg w).1.log.drop w.log.length =
              pre ++ .msg_write (.MessageType_OwnershipProof r) :: post ∧
            Event.screen .layoutConfirmOwnershipProof ∈ pre ∧
            (Prompt.protectButton .ButtonRequest_ProtectCall false, true) ∈
              prompted env w.prompts pre ∧
            (msg.has_commitment_data = true →
              (Prompt.fsm_layoutCommitmentData
                  (readBytes msg.commitment_data.bytes
                    msg.commitment_data.size), true) ∈
                prompted env w.prompts pre))) ∧
      (((Prompt.protectButton .ButtonRequest_ProtectCall false, false) ∈
            prompted env w.prompts
              ((fsm_msgGetOwnershipProof env msg w).1.log.drop w.log.length) ∨
          ∃ d, (Prompt.fsm_layoutCommitmentData d, false) ∈
            prompted env w.prompts
              ((fsm_msgGetOwnershipProof env msg w).1.log.drop
                w.log.length)) →
        messages
            ((fsm_msgGetOwnershipProof env msg w).1.log.drop w.log.length) =
          [.failure .Failure_ActionCancelled none] ∧
        responses
            ((fsm_msgGetOwnershipProof env msg w).1.log.drop w.log.length) =
          [] ∧
        calls
            ((fsm_msgGetOwnershipProof env msg w).1.log.drop w.log.length) =
          []) := by
  refine ⟨fun r hr => ?_, fun h => ?_⟩
  · obtain ⟨hflag, ⟨c, hnew⟩, hans⟩ :=
      fsm_msgGetOwnershipProof_emit_walk env msg w r hr
    refine ⟨hflag, fun huc => ?_⟩
    obtain ⟨h1, h2⟩ := hans huc
    refine ⟨confirmEvents msg ++ [.call c], [.screen .layoutHome], ?_, ?_, ?_,
      ?_⟩
    · rw [hnew]
      simp
    · simp [confirmEvents, huc]
    · simp [confirmEvents, huc, h1]
    · intro hcd
      simp [confirmEvents, huc, hcd, h2 hcd]
  · rcases h with h | ⟨d, h⟩
    · exact fsm_msgGetOwnershipProof_decline_walk env msg w _ h
    · exact fsm_msgGetOwnershipProof_decline_walk env msg w _ h

/-- The request `exProofConfirm` under `exEnv`, where the user accepts both
prompts: the proof is written, with flags byte 1, after the two prompts. -/
theorem exProofConfirm_accepted :
    (fsm_msgGetOwnershipProof exEnv exProofConfirm World.init).1.log =
      [.screen .layoutConfirmOwnershipProof,
        .prompt (.protectButton .ButtonRequest_ProtectCall false),
        .prompt (.fsm_layoutCommitmentData [7, 9]),
        .call .tx_sign_ecdsa,
        .msg_write (.MessageType_OwnershipProof
          (fsm_msgGetOwnershipProof exEnv exProofConfirm World.init).2),
        .screen .layoutHome] ∧
      (fsm_msgGetOwnershipProof exEnv exProofConfirm
        World.init).2.ownership_proof.bytes.getD 4 0 = 1 := by
  decide

/-- The request `exProofConfirm` when the user declines the button prompt,
and when the user declines the commitment-data prompt: the handler sends
`Failure_ActionCancelled` and neither signs nor writes a proof. -/
theorem exProofConfirm_declined :
    (fsm_msgGetOwnershipProof exEnvDecline exProofConfirm World.init).1.log =
      [.screen .layoutConfirmOwnershipProof,
        .prompt (.protectButton .ButtonRequest_ProtectCall false),
        .failure .Failure_ActionCancelled none, .screen .layoutHome] ∧
      (fsm_msgGetOwnershipProof exEnvDeclineSecond exProofConfirm
          World.init).1.log =
        [.screen .layoutConfirmOwnershipProof,
          .prompt (.protectButton .ButtonRequest_ProtectCall false),
          .prompt (.fsm_layoutCommitmentData [7, 9]),
          .failure .Failure_ActionCancelled none, .screen .layoutHome] := by
  decide

/-! ## The description of a multisig address -/

theorem strlcpy_multisig_template :
    strlcpy (List.replicate 20 0) (lit "Multisig __ of __:") 20 =
      [77, 117, 108, 116, 105, 115, 105, 103, 32, 95, 95, 32, 111, 102, 32,
        95, 95, 58, 0, 0] := by
  decide

theorem cstr_addressDesc_multisig (env : Env) (msg : GetAddress)
    (hm : msg.has_multisig = true) (hlt : msg.multisig.m < 100)
    (hn : env.cryptoMultisigPubkeyCount msg.multisig < 100) :
    cstr (addressDesc env msg) =
      multisigDesc msg.multisig.m (env.cryptoMultisigPubkeyCount msg.multisig) := by
  have h1 : lit "Multisig " = [77, 117, 108, 116, 105, 115, 105, 103, 32] := by
    decide
  have h2 : lit " of " = [32, 111, 102, 32] := by decide
  have h3 : lit ":" = [58] := by decide
  have c0 : Char.toNat '0' = 48 := rfl
  have c1 : Char.toNat ' ' = 32 := rfl
  simp only [addressDesc, hm, if_true, strlcpy_multisig_template, multisigDesc,
    twoCharField, h1, h2, h3, List.set_cons_succ, List.set_cons_zero, c0, c1]
  generalize env.cryptoMultisigPubkeyCount msg.multisig = n at hn ⊢
  generalize msg.multisig.m = m at hlt ⊢
  have hm1 : (48 + m / 10) % 256 = 48 + m / 10 := by omega
  have hm2 : (48 + m % 10) % 256 = 48 + m % 10 := by omega
  have hn1 : (48 + n / 10) % 256 = 48 + n / 10 := by omega
  have hn2 : (48 + n % 10) % 256 = 48 + n % 10 := by omega
  have k : ∀ x : Nat, (48 + x != 0) = true := fun x => by simp
  rw [hm1, hm2, hn1, hn2]
  by_cases hm10 : m < 10 <;> by_cases hn10 : n < 10 <;>
    simp [cstr, List.takeWhile, hm10, hn10, k]


theorem multisigDesc_length (m n : Nat) : (multisigDesc m n).length = 18 := by
  have h1 : lit "Multisig " = [77, 117, 108, 116, 105, 115, 105, 103, 32] := by
    decide
  have h2 : lit " of " = [32, 111, 102, 32] := by decide
  have h3 : lit ":" = [58] := by decide
  simp only [multisigDesc, twoCharField, h1, h2, h3]
  split_ifs <;> rfl

theorem multisigDesc_template (m n j : Nat) (h9 : j ≠ 9) (h10 : j ≠ 10)
    (h15 : j ≠ 15) (h16 : j ≠ 16) :
    (multisigDesc m n).getD j 0 = (lit "Multisig __ of __:").getD j 0 := by
  have h1 : lit "Multisig " = [77, 117, 108, 116, 105, 115, 105, 103, 32] := by
    decide
  have h2 : lit " of " = [32, 111, 102, 32] := by decide
  have h3 : lit ":" = [58] := by decide
  have h4 : lit "Multisig __ of __:" =
      [77, 117, 108, 116, 105, 115, 105, 103, 32, 95, 95, 32, 111, 102, 32,
        95, 95, 58] := by decide
  simp only [multisigDesc, twoCharField, h1, h2, h3, h4]
  rcases j with _ | _ | _ | _ | _ | _ | _ | _ | _ | _ | _ | _ | _ | _ | _ | _ |
    _ | _ | j <;> split_ifs <;> simp_all

@[simp] theorem layoutAddress_not_mem_checkCoinPathEvents (env : Env)
    (coin : CoinInfo) (st : InputScriptType) (n : List Nat) (m sw : Bool)
    (k : Nat) (a : String) (d : List Nat) (c : Bool) (s : Nat) (i : Int)
    (x : Nat) :
    Event.prompt (.fsm_layoutAddress a d c s i x) ∉
      checkCoinPathEvents env coin st n m sw k := by
  unfold checkCoinPathEvents
  split_ifs <;> simp

theorem fsm_msgGetAddress_desc_walk (env : Env) (msg : GetAddress)
    (w : World) :
    ∀ address desc c s i x,
      Event.prompt (.fsm_layoutAddress address desc c s i x) ∈
        (fsm_msgGetAddress env msg w).1.log.drop w.log.length →
      desc = cstr (addressDesc env msg) := by
  show (fun out : World × Address =>
    ∀ address desc c s i x,
      Event.prompt (.fsm_layoutAddress address desc c s i x) ∈
        out.1.log.drop w.log.length →
      desc = cstr (addressDesc env msg))
      (fsm_msgGetAddress env msg w)
  generalize hP : (fun out : World × Address =>
    ∀ address desc c s i x,
      Event.prompt (.fsm_layoutAddress address desc c s i x) ∈
        out.1.log.drop w.log.length →
      desc = cstr (addressDesc env msg)) = P
  cases hm : msg.has_multisig <;>
  simp only [fsm_msgGetAddress, CHECK_INITIALIZED_fst, CHECK_PIN_fst,
    fsm_getCoin_fst, fsm_getDerivedNode_fst, fsm_checkCoinPath_fst, hm,
    Bool.false_eq_true, if_false, if_true]
  repeat' first
    | (refine ite_rule P _ _ _ ?_ ?_ <;> intros)
    | (refine orReturn_rule P _ _ _ ?_ ?_ <;> intros)
  all_goals
    subst hP
    simp_all [List.append_assoc, ite_fst, ite_snd, ite_log, ite_prompts,
      ite_append_append, ite_append_self, ite_self_append, mem_ite_list]

/-- C12: in `fsm_msgGetAddress` with a multisig descriptor, for every threshold
`m` and cosigner count `n` below 100, the description handed to the address
prompt is `"Multisig "`, the two-character field of `m`, `" of "`, the
two-character field of `n` and `":"`; it is 18 characters long, and at every
position other than 9, 10, 15 and 16 it holds the character of the template
`"Multisig __ of __:"`, whatever `m` and `n` are. -/
theorem fsm_msgGetAddress_multisig_desc (env : Env) (msg : GetAddress)
    (w : World) (address : String) (desc : List Nat) (c : Bool) (s : Nat)
    (i : Int) (x : Nat)
    (hm : msg.has_multisig = true)
    (hlt : msg.multisig.m < 100)
    (hn : env.cryptoMultisigPubkeyCount msg.multisig < 100)
    (h : Event.prompt (.fsm_layoutAddress address desc c s i x) ∈
      (fsm_msgGetAddress env msg w).1.log.drop w.log.length) :
    desc = multisigDesc msg.multisig.m
        (env.cryptoMultisigPubkeyCount msg.multisig) ∧
      desc.length = 18 ∧
      ∀ j, j ≠ 9 → j ≠ 10 → j ≠ 15 → j ≠ 16 →
        desc.getD j 0 = (lit "Multisig __ of __:").getD j 0 := by
  have hd := fsm_msgGetAddress_desc_walk env msg w address desc c s i x h
  rw [cstr_addressDesc_multisig env msg hm hlt hn] at hd
  subst hd
  exact ⟨rfl, multisigDesc_length _ _,
    fun j h9 h10 h15 h16 => multisigDesc_template _ _ j h9 h10 h15 h16⟩

/-- Witness of C12: the 2-of-3 request `exMultisigAddress` under `exEnv` is
shown with the description `"Multisig  2 of  3:"`. -/
theorem fsm_msgGetAddress_multisig_desc_witness :
    exMultisigAddress.has_multisig = true ∧
      exMultisigAddress.multisig.m < 100 ∧
      exEnv.cryptoMultisigPubkeyCount exMultisigAddress.multisig < 100 ∧
      Event.prompt (.fsm_layoutAddress "bc1q" (lit "Multisig  2 of  3:") false
          0 0 0x049d7cb2) ∈
        (fsm_msgGetAddress exEnv exMultisigAddress World.init).1.log.drop
          World.init.log.length ∧
      (lit "Multisig  2 of  3:" = multisigDesc 2 3 ∧
        (lit "Multisig  2 of  3:").length = 18 ∧
        ∀ j, j ≠ 9 → j ≠ 10 → j ≠ 15 → j ≠ 16 →
          (lit "Multisig  2 of  3:").getD j 0 =
            (lit "Multisig __ of __:").getD j 0) :=
  ⟨by decide, by decide, by decide, by decide,
    fsm_msgGetAddress_multisig_desc exEnv exMultisigAddress World.init "bc1q"
      (lit "Multisig  2 of  3:") false 0 0 0x049d7cb2 (by decide) (by decide)
      (by decide) (by decide)⟩

/-! ## The response buffer on the abort paths, path by path -/

/-- The runs used above reach the later stages of their handlers: SignMessage
under `exEnvDecline` reaches the address computation, and GetOwnershipProof
under `exEnvNoSign` reaches the writing of the proof prefix. -/
theorem examples_reach :
    SignMessageReaches exEnvDecline exSignMessage 0 exCoin
        (exNode, 0x12345678) ∧
      OwnershipProofReaches exEnvNoSign exProof 0 exCoin (exNode, 0x12345678)
        [0, 20, 1, 2, 3] (List.replicate 32 3) := by
  unfold SignMessageReaches OwnershipProofReaches
  decide

/-- A taproot request with `user_confirmation` whose commitment-data prompt
the user declines: the run does not reach the writing of the proof prefix, it
ends with `Failure_ActionCancelled`, and the response buffer is all zero. -/
theorem exProofConfirmTaproot_declined :
    (∀ coin nf script_pubkey key,
        ¬ OwnershipProofReaches exEnvDeclineSecond exProofConfirmTaproot 0
          coin nf script_pubkey key) ∧
      messages (fsm_msgGetOwnershipProof exEnvDeclineSecond
          exProofConfirmTaproot World.init).1.log =
        [.failure .Failure_ActionCancelled none] ∧
      (fsm_msgGetOwnershipProof exEnvDeclineSecond exProofConfirmTaproot
        World.init).2.isZero = true := by
  refine ⟨fun coin nf script_pubkey key h => ?_, by decide, by decide⟩
  have h2 := (h.2.2.2.2.2.2.2.2.2.2 rfl).2 rfl
  exact absurd h2 (by decide)

end TrezorFsm
